import Mathlib

/-!
Verification development for the CIR/CIM compliance-analysis engine.

The Python sources under `cir_system/` are shallowly embedded below:
pure string processing becomes executable Lean functions on `String` /
`List Char`, the regular-expression fragment actually used by the code is
given a small backtracking matcher with Python `re` semantics (leftmost
search, greedy/lazy quantifiers, capture groups, IGNORECASE and MULTILINE
flags), float arithmetic on scores becomes exact rational arithmetic, and
exception-raising stages become `Except`-valued inputs.
-/

/-! ## Python string primitives -/

/-- Whitespace characters recognised by Python's `str.strip` / `\s` (ASCII). -/
def pySpace (c : Char) : Bool :=
  c = ' ' || c = '\t' || c = '\n' || c = '\r' || c = Char.ofNat 11 || c = Char.ofNat 12

/-- Python `str.strip()` on a character list. -/
def pyStripL (l : List Char) : List Char :=
  ((l.dropWhile pySpace).reverse.dropWhile pySpace).reverse

/-- Python `str.strip()`. -/
def pyStrip (s : String) : String := String.mk (pyStripL s.data)

/-- Python `str.lower()` (ASCII case fold, which covers the embedded texts). -/
def pyLower (s : String) : String := String.mk (s.data.map Char.toLower)

/-- Python `len` of a string. -/
def pyLen (s : String) : Nat := s.data.length

/-- Does list `l` start with list `p`. -/
def listStartsWith : List Char → List Char → Bool
  | _, [] => true
  | [], _ :: _ => false
  | a :: l, b :: p => a = b && listStartsWith l p

/-- Does `p` occur as a contiguous sublist of `l` (Python's `p in l`). -/
def listHasSub (p : List Char) : List Char → Bool
  | [] => listStartsWith [] p
  | c :: t => listStartsWith (c :: t) p || listHasSub p t

/-- Python `sub in hay` on strings. -/
def strHasSub (sub hay : String) : Bool := listHasSub sub.data hay.data

/-- Python `str.startswith` on strings. -/
def pyStartsWith (s p : String) : Bool := listStartsWith s.data p.data

/-- Python `str.split()` with no argument: split on whitespace runs, dropping
empty pieces. -/
def pySplitWsL : List Char → List (List Char)
  | [] => []
  | c :: t =>
    if pySpace c then pySplitWsL t
    else
      match pySplitWsL t with
      | [] => [[c]]
      | w :: ws => if (match t with | [] => true | d :: _ => pySpace d) then [c] :: w :: ws
                   else (c :: w) :: ws

/-- Python `str.split()` on strings. -/
def pySplitWs (s : String) : List String := (pySplitWsL s.data).map String.mk

/-- Python `' '.join` on a list of character lists. -/
def pyJoinSpL : List (List Char) → List Char
  | [] => []
  | [w] => w
  | w :: ws => w ++ ' ' :: pyJoinSpL ws

/-- Python `str.capitalize()`: first character uppercased, the rest lowercased. -/
def pyCapitalizeL : List Char → List Char
  | [] => []
  | c :: t => c.toUpper :: t.map Char.toLower

/-- Python `str.title()`: a letter is uppercased when the previous character is
not a letter, lowercased otherwise (ASCII; the extracted vocabulary is ASCII). -/
def pyTitleL : List Char → Bool → List Char
  | [], _ => []
  | c :: t, prevAlpha =>
    if c.isAlpha then
      (if prevAlpha then c.toLower else c.toUpper) :: pyTitleL t true
    else
      c :: pyTitleL t false

/-- Python `str.title()` on strings. -/
def pyTitle (s : String) : String := String.mk (pyTitleL s.data false)

/-! ## A small regular-expression engine with Python `re` semantics

Only the constructs appearing in the repository's patterns are supported:
literal characters, character classes (with ranges, `\d`, `\w`, `\s` and
negation), concatenation, alternation (leftmost preference), greedy and lazy
`*` / `+` / `?` / counted repetition (expanded at encoding time), capture
groups, and the `^` / `$` anchors under an optional MULTILINE flag.
IGNORECASE is an ASCII case fold as in Python's `re` for ASCII input.
Backtracking order matches CPython's engine: alternatives left to right,
greedy loops longest first, lazy loops shortest first, search at the
leftmost possible start. A fuel argument (always sufficient, since every
loop body of the embedded patterns consumes at least one character) makes
the matcher structurally terminating. -/

/-- One item of a character class. -/
inductive ClsItem where
  | ch (c : Char)
  | range (lo hi : Char)
  | digit
  | word
  | space
  deriving DecidableEq

/-- Regular expression syntax. -/
inductive RE where
  | eps
  | ch (c : Char)
  | cls (neg : Bool) (items : List ClsItem)
  | seq (a b : RE)
  | alt (a b : RE)
  | star (lazy : Bool) (a : RE)
  | group (idx : Nat) (a : RE)
  | bol
  | eol
  deriving DecidableEq

/-- Does a single class item match a character (case-sensitively). -/
def clsItemMatch : ClsItem → Char → Bool
  | .ch c, x => x = c
  | .range lo hi, x => lo ≤ x && x ≤ hi
  | .digit, x => x.isDigit
  | .word, x => x.isAlphanum || x = '_'
  | .space, x => pySpace x

/-- Class membership, honouring IGNORECASE by also testing the case-swapped
character as CPython does for ASCII. -/
def reClsMem (icase : Bool) (items : List ClsItem) (x : Char) : Bool :=
  items.any (fun it => clsItemMatch it x) ||
    (icase && (items.any (fun it => clsItemMatch it x.toLower) ||
               items.any (fun it => clsItemMatch it x.toUpper)))

/-- Literal character comparison, honouring IGNORECASE. -/
def reCharEq (icase : Bool) (c x : Char) : Bool :=
  x = c || (icase && x.toLower = c.toLower)

/-- Backtracking matcher in continuation-passing style. The continuation
receives the previous character (for anchors), the remaining input and the
captures collected so far; the overall result is the remaining input and
captures of the first success in Python's backtracking order. Recursion is
structural on a fuel argument that bounds the call depth; `reMatchAt` supplies
fuel that is amply sufficient for the embedded patterns, whose loop bodies all
consume at least one character per iteration. -/
def reRun (icase ml : Bool) : Nat → RE → Option Char → List Char →
    List (Nat × List Char) →
    (Option Char → List Char → List (Nat × List Char) →
      Option (List Char × List (Nat × List Char))) →
    Option (List Char × List (Nat × List Char))
  | 0, _, _, _, _, _ => none
  | fuel + 1, re, prev, s, caps, k =>
    match re with
    | .eps => k prev s caps
    | .ch c =>
      match s with
      | [] => none
      | x :: rest => if reCharEq icase c x then k (some x) rest caps else none
    | .cls neg items =>
      match s with
      | [] => none
      | x :: rest => if reClsMem icase items x ≠ neg then k (some x) rest caps else none
    | .seq a b =>
      reRun icase ml fuel a prev s caps (fun p2 s2 c2 => reRun icase ml fuel b p2 s2 c2 k)
    | .alt a b =>
      match reRun icase ml fuel a prev s caps k with
      | some r => some r
      | none => reRun icase ml fuel b prev s caps k
    | .star lz a =>
      if lz then
        match k prev s caps with
        | some r => some r
        | none =>
          reRun icase ml fuel a prev s caps (fun p2 s2 c2 =>
            if s2.length < s.length then reRun icase ml fuel (.star lz a) p2 s2 c2 k
            else none)
      else
        match reRun icase ml fuel a prev s caps (fun p2 s2 c2 =>
            if s2.length < s.length then reRun icase ml fuel (.star lz a) p2 s2 c2 k
            else none) with
        | some r => some r
        | none => k prev s caps
    | .group i a =>
      reRun icase ml fuel a prev s caps (fun p2 s2 c2 =>
        k p2 s2 ((i, s.take (s.length - s2.length)) :: c2))
    | .bol => if prev = none || (ml && prev = some '\n') then k prev s caps else none
    | .eol =>
      match s with
      | [] => k prev s caps
      | c :: rest => if c = '\n' && (ml || rest = []) then k prev s caps else none

/-- Structural size of an expression, used to budget matcher fuel. -/
def reSize : RE → Nat
  | .eps => 1
  | .ch _ => 1
  | .cls _ _ => 1
  | .seq a b => reSize a + reSize b + 1
  | .alt a b => reSize a + reSize b + 1
  | .star _ a => reSize a + 1
  | .group _ a => reSize a + 1
  | .bol => 1
  | .eol => 1

/-- One match: the matched text, capture groups (latest binding first),
the input after the match and the last character of the match. -/
structure RMatch where
  whole : List Char
  groups : List (Nat × List Char)
  tailStr : List Char
  lastCh : Option Char
  deriving DecidableEq

/-- Try to match `re` exactly at the current position. -/
def reMatchAt (icase ml : Bool) (re : RE) (prev : Option Char) (s : List Char) :
    Option RMatch :=
  match reRun icase ml ((reSize re + 2) * (s.length + 2)) re prev s []
      (fun _ s2 c2 => some (s2, c2)) with
  | none => none
  | some (rest, caps) =>
    let w := s.take (s.length - rest.length)
    some { whole := w, groups := caps, tailStr := rest,
           lastCh := if w.isEmpty then prev else w.getLast? }

/-- Python `re.search`: leftmost match. -/
def reSearch (icase ml : Bool) (re : RE) (prev : Option Char) (s : List Char) :
    Option RMatch :=
  match reMatchAt icase ml re prev s with
  | some m => some m
  | none =>
    match s with
    | [] => none
    | c :: t => reSearch icase ml re (some c) t

/-- Python `re.finditer`: repeated non-overlapping leftmost matches, scanning
on from the end of each match (advancing one character after an empty match). -/
def reFindIter (icase ml : Bool) (re : RE) : Nat → Option Char → List Char → List RMatch
  | 0, _, _ => []
  | fuel + 1, prev, s =>
    match reSearch icase ml re prev s with
    | none => []
    | some m =>
      if m.whole.isEmpty then
        m :: (match m.tailStr with
              | [] => []
              | c :: t => reFindIter icase ml re fuel (some c) t)
      else
        m :: reFindIter icase ml re fuel m.lastCh m.tailStr

/-- Python `re.search` on a string. -/
def pySearch (icase ml : Bool) (re : RE) (s : String) : Option RMatch :=
  reSearch icase ml re none s.data

/-- Python `re.finditer` on a string. -/
def pyFindIter (icase ml : Bool) (re : RE) (s : String) : List RMatch :=
  reFindIter icase ml re (s.data.length + 1) none s.data

/-- Value of capture group `i` (`none` when the group did not participate). -/
def mGroup (m : RMatch) (i : Nat) : Option (List Char) := List.lookup i m.groups

/-- Value of capture group `i`, defaulting to the empty string. -/
def mGroupD (m : RMatch) (i : Nat) : List Char := (mGroup m i).getD []

/-- Value of capture group `i` as a `String`. -/
def mGroupS (m : RMatch) (i : Nat) : String := String.mk (mGroupD m i)

/-- The whole matched text (Python `match.group(0)`). -/
def mWholeS (m : RMatch) : String := String.mk m.whole

/-! ## Pattern-building combinators -/

/-- Concatenation of a list of expressions. -/
def reCat : List RE → RE
  | [] => .eps
  | [r] => r
  | r :: rs => .seq r (reCat rs)

/-- Literal string. -/
def reLit (s : String) : RE := reCat (s.data.map RE.ch)

/-- Alternation of a list (leftmost preferred). -/
def reAltL : List RE → RE
  | [] => .eps
  | [r] => r
  | r :: rs => .alt r (reAltL rs)

/-- Greedy `r?`. -/
def reOpt (r : RE) : RE := .alt r .eps

/-- Greedy `r+`. -/
def rePlus (r : RE) : RE := .seq r (.star false r)

/-- Lazy `r+?`. -/
def rePlusLazy (r : RE) : RE := .seq r (.star true r)

/-- Greedy `r{0,n}`, expanded. -/
def reRepMax : Nat → RE → RE
  | 0, _ => .eps
  | n + 1, r => .alt (.seq r (reRepMax n r)) .eps

/-- Exactly `r{n}`, expanded. -/
def reRepN : Nat → RE → RE
  | 0, _ => .eps
  | n + 1, r => .seq r (reRepN n r)

/-- Greedy `r{1,2}`, expanded. -/
def reRep12 (r : RE) : RE := .seq r (reOpt r)

/-- Character class `[...]`. -/
def reCls (items : List ClsItem) : RE := .cls false items

/-- Negated character class `[^...]`. -/
def reNCls (items : List ClsItem) : RE := .cls true items

/-- Class `[^\n]` (also Python's `.` outside DOTALL). -/
def reNotNl : RE := reNCls [.ch '\n']

/-- Class `\s`. -/
def reSp : RE := reCls [.space]

/-- Class `\d`. -/
def reDig : RE := reCls [.digit]

/-- Class `\w`. -/
def reWrd : RE := reCls [.word]

/-- Class `[:\s]`, ubiquitous in the label patterns. -/
def reColSp : RE := reCls [.ch ':', .space]

/-- Class `[A-Z0-9\-]`. -/
def reIdCls : RE := reCls [.range 'A' 'Z', .range '0' '9', .ch '-']

/-- Pattern `[:\s]+` followed by a capture of `[A-Z0-9\-]+` in group 1. -/
def reLabelId (label : String) : RE :=
  reCat [reLit label, rePlus reColSp, .group 1 (rePlus reIdCls)]

/-- Pattern `label[:\s]+([^\n]+)`. -/
def reLabelLine (label : String) : RE :=
  reCat [reLit label, rePlus reColSp, .group 1 (rePlus reNotNl)]

/-- Pattern `label[:\s]+([^\n.]+)`. -/
def reLabelNoDot (label : String) : RE :=
  reCat [reLit label, rePlus reColSp, .group 1 (rePlus (reNCls [.ch '\n', .ch '.']))]

/-! ## Decimal formatting (Python `%0Nd`) -/

/-- Decimal digit character. -/
def decDigit (d : Nat) : Char := Char.ofNat (48 + d)

/-- Decimal digits, most significant first, with structural fuel. -/
def natDecGo : Nat → Nat → List Char
  | 0, _ => []
  | fuel + 1, n =>
    if n < 10 then [decDigit n]
    else natDecGo fuel (n / 10) ++ [decDigit (n % 10)]

/-- Decimal digits of a natural number, most significant first. -/
def natDecL (n : Nat) : List Char := natDecGo (n + 1) n

/-- Zero-pad a digit list on the left to width `w`. -/
def padZeroTo (w : Nat) (l : List Char) : List Char :=
  List.replicate (w - l.length) '0' ++ l

/-- Python `f"{n:0wd}"` for natural `n`. -/
def pyFormatZ (w n : Nat) : String := String.mk (padZeroTo w (natDecL n))

/-- Python `str(n)` for natural `n`. -/
def pyNatStr (n : Nat) : String := String.mk (natDecL n)

/-- Python slice `s[:n]`. -/
def strTake (n : Nat) (s : String) : String := String.mk (s.data.take n)

/-- Python `' '.join` on strings. -/
def pyJoinSp (l : List String) : String := String.mk (pyJoinSpL (l.map String.data))

/-! ## Embedding of `compliance_matcher.py` (`ComplianceMatcher`) -/

/-- Compliance assessment status (`ComplianceStatus` in `compliance_matcher.py`). -/
inductive CStatus where
  | met
  | notMet
  | partialC
  | unableToVerify
  deriving DecidableEq

/-- String value of a `ComplianceStatus` member. -/
def CStatus.value : CStatus → String
  | .met => "Met"
  | .notMet => "Not Met"
  | .partialC => "Partial"
  | .unableToVerify => "Unable to Verify"

/-- The requirement attributes read by `ComplianceMatcher._assess_requirement`. -/
structure ReqInput where
  requirement_id : String
  title : String
  requirement_type : String
  description : String
  evidence_needed : List String
  deriving DecidableEq

/-- Evidence record (`ComplianceEvidence` dataclass). -/
structure ComplianceEvidence where
  requirement_id : String
  requirement_title : String
  status : CStatus
  evidence_found : List String
  expected_evidence : List String
  comments : String
  supporting_cir_text : String
  visual_evidence : List String
  confidence_score : ℚ
  deriving DecidableEq

/-- Embedding of `_search_evidence`: keyword hits plus three category boosters. -/
def searchEvidence (requirementDesc cirText : String) : List String :=
  let kws := (pySplitWs requirementDesc).filterMap
    (fun w => if 3 < pyLen w then some (pyLower w) else none)
  let low := pyLower cirText
  let descLow := pyLower requirementDesc
  let base := kws.filterMap
    (fun kw => if strHasSub kw low then some ("Found: " ++ kw) else none)
  let t1 : List String :=
    if strHasSub "test" descLow &&
        (["test report", "test results", "test data"].any (fun t => strHasSub t low)) then
      ["Test documentation found"]
    else []
  let t2 : List String :=
    if strHasSub "document" descLow &&
        (["document", "record", "report", "log"].any (fun d => strHasSub d low)) then
      ["Documentation found"]
    else []
  let t3 : List String :=
    if (strHasSub "photo" descLow || strHasSub "image" descLow) &&
        (strHasSub "photo" low || strHasSub "image" low || strHasSub "[PHOTO]" cirText) then
      ["Photo/Image reference found"]
    else []
  base ++ t1 ++ t2 ++ t3

/-- Is the previous character sentence-ending punctuation. -/
def sentPunct (prev : Option Char) : Bool :=
  prev = some '.' || prev = some '!' || prev = some '?'

/-- Prepend a character to the first segment of a split result. -/
def consSeg (c : Char) : List (List Char) → List (List Char)
  | [] => [[c]]
  | seg :: segs => (c :: seg) :: segs

/-- Sentence splitting of `_extract_relevant_text`: split on whitespace runs
that immediately follow one of `.`, `!`, `?` (the lookbehind split pattern).
The boolean records that the scanner is inside a separator run. -/
def sentSplitGo : Option Char → Bool → List Char → List (List Char)
  | _, _, [] => [[]]
  | _, true, c :: t =>
    if pySpace c then sentSplitGo (some c) true t
    else consSeg c (sentSplitGo (some c) false t)
  | prev, false, c :: t =>
    if pySpace c && sentPunct prev then [] :: sentSplitGo (some c) true t
    else consSeg c (sentSplitGo (some c) false t)

/-- Sentence list of a text. -/
def sentencesOf (s : String) : List String :=
  (sentSplitGo none false s.data).map String.mk

/-- Accumulation loop of `_extract_relevant_text`. -/
def relevantGo (kws : List String) : List String → List String → List String
  | [], acc => acc
  | s :: rest, acc =>
    if kws.any (fun kw => strHasSub (pyLower kw) (pyLower s)) then
      let acc2 := acc ++ [s]
      if 300 < pyLen (pyJoinSp acc2) then acc2 else relevantGo kws rest acc2
    else relevantGo kws rest acc

/-- Embedding of `_extract_relevant_text` (default `max_length = 300`). -/
def extractRelevantText (requirementDesc cirText : String) : String :=
  let kws := (pySplitWs requirementDesc).take 3
  strTake 300 (pyJoinSp (relevantGo kws (sentencesOf cirText) []))

/-- Embedding of `_determine_status`: status and confidence from the number of
evidence items found versus expected. Scores are exact rationals. -/
def determineStatus (reqType : String) (evidenceFound expectedEvidence : List String)
    (cirText : String) : CStatus × ℚ :=
  if evidenceFound = [] then (.unableToVerify, 30)
  else
    let ratio : ℚ := (evidenceFound.length : ℚ) / ((max 1 expectedEvidence.length : Nat) : ℚ)
    if 9/10 ≤ ratio then (.met, 90 + ((min 10 (evidenceFound.length * 5) : Nat) : ℚ))
    else if 1/2 ≤ ratio then (.partialC, 60 + ratio * 30)
    else (.notMet, ((min 50 (10 + evidenceFound.length * 10) : Nat) : ℚ))

/-- Embedding of `_generate_assessment_comment`. -/
def assessmentComment (status : CStatus) (evidenceFound expectedEvidence : List String) :
    String :=
  match status with
  | .met => "All required evidence found (" ++ pyNatStr evidenceFound.length ++
      " items verified)"
  | .partialC =>
      "Partial compliance: " ++ pyNatStr evidenceFound.length ++ " of " ++
      pyNatStr expectedEvidence.length ++ " requirements met. " ++
      pyNatStr (expectedEvidence.length - evidenceFound.length) ++ " items missing."
  | .notMet =>
      "Non-compliant: " ++ pyNatStr expectedEvidence.length ++
      " requirements expected, " ++ pyNatStr evidenceFound.length ++ " found"
  | .unableToVerify => "Unable to verify requirement: insufficient evidence in CIR"

/-- Visual-evidence pattern `\[PHOTO[^\]]*\]`. -/
def reVis1 : RE := reCat [.ch '[', reLit "PHOTO", .star false (reNCls [.ch ']']), .ch ']']

/-- Visual-evidence pattern `\[IMAGE[^\]]*\]`. -/
def reVis2 : RE := reCat [.ch '[', reLit "IMAGE", .star false (reNCls [.ch ']']), .ch ']']

/-- Visual-evidence pattern `photo.*?(?:attached|included|see)`. -/
def reVis3 : RE :=
  reCat [reLit "photo", .star true reNotNl,
         reAltL [reLit "attached", reLit "included", reLit "see"]]

/-- Visual-evidence pattern `(?:see|refer to)\s+(?:photo|image|figure|fig\.?|picture)`. -/
def reVis4 : RE :=
  reCat [reAltL [reLit "see", reLit "refer to"], rePlus reSp,
         reAltL [reLit "photo", reLit "image", reLit "figure",
                 .seq (reLit "fig") (reOpt (.ch '.')), reLit "picture"]]

/-- Embedding of `_find_visual_evidence`: all IGNORECASE matches of the four
photo/image reference patterns, in pattern order. -/
def findVisualEvidence (cirText : String) : List String :=
  ([reVis1, reVis2, reVis3, reVis4].flatMap
    (fun p => (pyFindIter true false p cirText).map mWholeS))

/-- Embedding of `_assess_requirement`. -/
def assessRequirement (req : ReqInput) (cirText : String) : ComplianceEvidence :=
  let evidenceFound := searchEvidence req.description cirText
  let status := (determineStatus req.requirement_type evidenceFound req.evidence_needed
    cirText).1
  let confidence := (determineStatus req.requirement_type evidenceFound req.evidence_needed
    cirText).2
  { requirement_id := req.requirement_id
    requirement_title := req.title
    status := status
    evidence_found := evidenceFound
    expected_evidence := req.evidence_needed
    comments := assessmentComment status evidenceFound req.evidence_needed
    supporting_cir_text := extractRelevantText req.description cirText
    visual_evidence := findVisualEvidence cirText
    confidence_score := confidence }

/-- Metadata of the requirements document consumed by the matcher: only the
`affected_components` entry of `cim_metadata` is ever read. -/
structure CimMeta where
  affected_components : List String
  deriving DecidableEq

/-- Embedding of `_filter_applicable_requirements`. The evidence metadata is an
insertion-ordered string map; `get` with default yields `""` for a missing key. -/
def filterApplicable (requirements : List ReqInput) (cirMetadata : List (String × String))
    (cimMetadata : CimMeta) : List ReqInput :=
  let cirComponent := pyLower ((cirMetadata.lookup "Component Type").getD "")
  let cimComponents := cimMetadata.affected_components.map pyLower
  requirements.filter
    (fun _ => cimComponents.isEmpty || cimComponents.any (fun c => strHasSub c cirComponent))

/-- Summary dictionary of `_generate_summary` (the redundant display-only
`"summary"` string entry, a formatting of the other entries, is not modelled). -/
structure CSummary where
  total_requirements : Nat
  met : Nat
  partialCount : Nat
  not_met : Nat
  unable_to_verify : Nat
  compliance_score : ℚ
  go_nogo : String
  deriving DecidableEq

/-- Embedding of `_generate_summary` over the accumulated evidence list. -/
def generateSummary (evidenceList : List ComplianceEvidence) : CSummary :=
  let total := evidenceList.length
  let met := (evidenceList.filter (fun e => e.status = .met)).length
  let partialN := (evidenceList.filter (fun e => e.status = .partialC)).length
  let notMet := (evidenceList.filter (fun e => e.status = .notMet)).length
  let unable := (evidenceList.filter (fun e => e.status = .unableToVerify)).length
  let score : ℚ :=
    if 0 < total then ((met : ℚ) + (partialN : ℚ) * (1/2)) / ((max 1 total : Nat) : ℚ) * 100
    else 0
  { total_requirements := total
    met := met
    partialCount := partialN
    not_met := notMet
    unable_to_verify := unable
    compliance_score := score
    go_nogo := if 85 ≤ score ∧ notMet = 0 then "GO" else "NO-GO" }

/-- Embedding of `ComplianceMatcher.assess_compliance`. -/
def assessCompliance (cirText : String) (cirMetadata : List (String × String))
    (cimRequirements : List ReqInput) (cimMetadata : CimMeta) :
    List ComplianceEvidence × CSummary :=
  let applicable := filterApplicable cimRequirements cirMetadata cimMetadata
  let evidenceList := applicable.map (fun req => assessRequirement req cirText)
  (evidenceList, generateSummary evidenceList)

/-! ## Embedding of `cir_advanced_extractor.py` (`AdvancedCIRExtractor`) -/

/-- A pattern together with its number of capture groups. -/
structure PatSpec where
  re : RE
  ng : Nat

/-- Class `[0-9\.]`. -/
def reNumDot : RE := reCls [.range '0' '9', .ch '.']

/-- Class of the slash and dash characters. -/
def reSlashDash : RE := reCls [.ch '/', .ch '-']

/-- Pattern `label[:\s]+([0-9\.]+)`. -/
def reLabelNum (label : String) : RE :=
  reCat [reLit label, rePlus reColSp, .group 1 (rePlus reNumDot)]

/-- Date shape: one or two digits, slash-dash, one or two digits, slash-dash, four digits. -/
def reDayMonthYear : RE :=
  reCat [reRep12 reDig, reSlashDash, reRep12 reDig, reSlashDash, reRepN 4 reDig]

/-- Pattern: the label, `[:\s]+`, then a captured day-month-year date shape. -/
def reLabelDate (label : String) : RE :=
  reCat [reLit label, rePlus reColSp, .group 1 reDayMonthYear]

/-- Pattern `Location[:\s]+([^\n,]+),?\s*([A-Z]{2})` (second `Country` pattern). -/
def reLocPat : RE :=
  reCat [reLit "Location", rePlus reColSp, .group 1 (rePlus (reNCls [.ch '\n', .ch ','])),
         reOpt (.ch ','), .star false reSp, .group 2 (reRepN 2 (reCls [.range 'A' 'Z']))]

/-- Pattern `name?[:\s]+([^\n.]+(?:\n[^\n]*?){0,3})` (observations/findings shape). -/
def reObsPat (stem : String) : RE :=
  reCat [reLit stem, reOpt (.ch 's'), rePlus reColSp,
         .group 1 (.seq (rePlus (reNCls [.ch '\n', .ch '.']))
                        (reRepMax 3 (.seq (.ch '\n') (.star true reNotNl))))]

/-- One-group pattern. -/
def ps1 (r : RE) : PatSpec := ⟨r, 1⟩

/-- Group-free pattern. -/
def ps0 (r : RE) : PatSpec := ⟨r, 0⟩

/-- The `_build_extraction_patterns` table, in source order. -/
def cirFieldPats : List (String × List PatSpec) :=
  [ ("CIR ID", [ps1 (reLabelId "CIR"), ps1 (reLabelId "CIR Number"), ps1 (reLabelId "Case")]),
    ("Report Type",
      [ps1 (reLabelLine "Report Type"), ps1 (reLabelLine "Type"),
       ps0 (reCat [reAltL [reLit "Service", reLit "Technical", reLit "Incident"],
                   rePlus reSp, reLit "Report"])]),
    ("Service Report Number",
      [ps1 (reLabelId "Service Report"), ps1 (reLabelId "Report Number"),
       ps1 (reLabelId "SR#")]),
    ("Reason for Service",
      [ps1 (reLabelNoDot "Reason"), ps1 (reLabelNoDot "Reason for Service"),
       ps1 (reLabelNoDot "Service Reason")]),
    ("Turbine ID",
      [ps1 (reLabelId "Turbine"), ps1 (reLabelId "Turbine ID"), ps1 (reLabelId "WTG ID"),
       ps1 (reCat [reLit "Turbine ", .alt (reLit "Number") (reLit "Identifier"),
                   rePlus reColSp, .group 1 (rePlus reIdCls)])]),
    ("WTG ID", [ps1 (reLabelId "WTG"), ps1 (reLabelId "WTG ID")]),
    ("Turbine Type",
      [ps1 (reLabelLine "Turbine Type"), ps1 (reLabelLine "Model"),
       ps1 (reLabelLine "Platform")]),
    ("MK Version",
      [ps1 (reLabelNum "MK"), ps1 (reLabelNum "Version"),
       ps1 (reLabelNum "Platform Version")]),
    ("Country", [ps1 (reLabelLine "Country"), ⟨reLocPat, 2⟩]),
    ("Site Name",
      [ps1 (reLabelLine "Site"), ps1 (reLabelLine "Site Name"),
       ps1 (reLabelLine "Wind Farm")]),
    ("Component Type",
      [ps1 (reLabelLine "Component"), ps1 (reLabelLine "Component Type"),
       ps1 (reLabelLine "Failed Component")]),
    ("Manufacturer",
      [ps1 (reLabelLine "Manufacturer"), ps1 (reLabelLine "OEM"),
       ps1 (reLabelLine "Supplier")]),
    ("Field Observations",
      [ps1 (reObsPat "Observation"), ps1 (reObsPat "Finding"),
       ps1 (reLabelNoDot "Technical Findings")]),
    ("Service Date", [ps1 (reLabelDate "Service Date"), ps1 (reLabelDate "Date")]),
    ("Technician",
      [ps1 (reLabelLine "Technician"), ps1 (reLabelLine "Performed By"),
       ps1 (reLabelLine "Inspector")]),
    ("Status",
      [ps1 (reLabelLine "Status"), ps1 (reLabelLine "Result"),
       ps0 (reAltL [reLit "GO", reLit "NO-GO", reLit "PASS", reLit "FAIL"])]) ]

/-- All capture groups of a match, in group order (`match.groups()`). -/
def groupsOf (m : RMatch) (ng : Nat) : List (Option (List Char)) :=
  (List.range ng).map (fun i => mGroup m (i + 1))

/-- First truthy group in reversed order (the value-picking loop of
`_extract_field`). -/
def firstTruthyRev (l : List (Option (List Char))) : Option (List Char) :=
  l.reverse.findSome? (fun g =>
    match g with
    | some v => if v ≠ [] then some v else none
    | none => none)

/-- Embedding of `_extract_field`: try the patterns in order (IGNORECASE and
MULTILINE); on the first match return the last truthy group, stripped, falling
back to the whole match. -/
def extractField (pats : List PatSpec) (text : String) : Option String :=
  match pats with
  | [] => none
  | p :: rest =>
    match pySearch true true p.re text with
    | some m =>
      match firstTruthyRev (groupsOf m p.ng) with
      | some g => some (pyStrip (String.mk g))
      | none => some (pyStrip (mWholeS m))
    | none => extractField rest text

/-- A metadata value: scalar text or a list of strings. -/
inductive MetaVal where
  | s (v : String)
  | vlist (v : List String)
  deriving DecidableEq

/-- Python truthiness combined with `str(value).strip()` as used by
`CIRMetadata.add_field`: a string must be nonempty and not all whitespace,
a list must be nonempty (its `str()` always contains brackets). -/
def metaTruthy : MetaVal → Bool
  | .s v => v ≠ "" && pyStrip v ≠ ""
  | .vlist l => !l.isEmpty

/-- Insertion-ordered dictionary update (Python `d[k] = v`). -/
def dictSet (m : List (String × MetaVal)) (k : String) (v : MetaVal) :
    List (String × MetaVal) :=
  if (m.lookup k).isSome then m.map (fun p => if p.1 = k then (k, v) else p)
  else m ++ [(k, v)]

/-- Insertion-ordered string-dictionary update. -/
def dictSetS (m : List (String × String)) (k v : String) : List (String × String) :=
  if (m.lookup k).isSome then m.map (fun p => if p.1 = k then (k, v) else p)
  else m ++ [(k, v)]

/-- The `CIRMetadata` dataclass: the field map and the per-field source tag. -/
structure CIRMetadataM where
  all_fields : List (String × MetaVal)
  field_sources : List (String × String)
  deriving DecidableEq

/-- Embedding of `CIRMetadata.add_field`. -/
def addField (md : CIRMetadataM) (name : String) (v : MetaVal) (src : String) :
    CIRMetadataM :=
  if metaTruthy v then
    { all_fields := dictSet md.all_fields name v,
      field_sources := dictSetS md.field_sources name src }
  else md

/-- Key class of the generic key:value scan: letters, whitespace, dash, slash. -/
def reKvKeyCls : RE :=
  reCls [.range 'A' 'Z', .range 'a' 'z', .space, .ch '-', .ch '/']

/-- The generic key:value pattern: a lazy key of letters, whitespace, dash and
slash in group 1, `[:\s]+`, a lazy line remainder in group 2, then newline or end. -/
def reKvPat : RE :=
  reCat [.group 1 (rePlusLazy reKvKeyCls), rePlus reColSp,
         .group 2 (rePlusLazy reNotNl), .alt (.ch '\n') .eol]

/-- Whitespace-run collapsing (the `\s+`-to-space substitution of
`_normalize_key`); the boolean records that the scanner is inside a run. -/
def collapseWsGo : Bool → List Char → List Char
  | _, [] => []
  | inRun, c :: t =>
    if pySpace c then
      if inRun then collapseWsGo true t else ' ' :: collapseWsGo true t
    else c :: collapseWsGo false t

/-- Whitespace-run collapsing. -/
def collapseWs (l : List Char) : List Char := collapseWsGo false l

/-- Embedding of `_normalize_key`. -/
def normalizeKey (key : String) : String :=
  let step1 := collapseWs (pyStripL key.data)
  let step2 := step1.map (fun c => if c = ':' || c = '-' || c = '_' then ' ' else c)
  pyJoinSp ((pySplitWsL step2).map (fun w => String.mk (pyCapitalizeL w)))

/-- The filter of the generic key:value scan applied to one (stripped) pair. -/
def kvKeep (key value : String) : Bool :=
  decide (2 < pyLen key) && decide (pyLen key < 100) &&
  decide (2 < pyLen value) && decide (pyLen value < 200) &&
  !(pyStartsWith key "The" || pyStartsWith key "This" ||
    pyStartsWith key "That" || pyStartsWith key "These")

/-- Embedding of `_extract_key_value_pairs`: scan for key:value lines, filter,
normalize the key, collect into an insertion-ordered dictionary. -/
def extractKeyValuePairs (text : String) : List (String × String) :=
  (pyFindIter false false reKvPat text).foldl
    (fun pairs m =>
      let key := pyStrip (mGroupS m 1)
      let value := pyStrip (mGroupS m 2)
      if kvKeep key value then dictSetS pairs (normalizeKey key) value else pairs)
    []

/-- Bulleted-line pattern `(?:^|\n)[\s]*[-•*]\s+([^\n]+)`. -/
def reBulletPat : RE :=
  reCat [.alt .bol (.ch '\n'), .star false (reCls [.space]),
         reCls [.ch '-', .ch '•', .ch '*'], rePlus reSp, .group 1 (rePlus reNotNl)]

/-- Numbered-line pattern `(?:^|\n)[\s]*(\d+)[.)\-:]\s+([^\n]+)`. -/
def reNumberedPat : RE :=
  reCat [.alt .bol (.ch '\n'), .star false (reCls [.space]), .group 1 (rePlus reDig),
         reCls [.ch '.', .ch ')', .ch '-', .ch ':'], rePlus reSp,
         .group 2 (rePlus reNotNl)]

/-- Embedding of `_extract_lists`. -/
def extractLists (text : String) : List (String × List String) :=
  let bullets := (pyFindIter false true reBulletPat text).map (fun m => mGroupS m 1)
  let numbered := (pyFindIter false true reNumberedPat text).map
    (fun m => (mGroupS m 1, mGroupS m 2))
  (if !bullets.isEmpty && decide (1 < bullets.length) then
     [("Observations", bullets.take 10)] else []) ++
  (if !numbered.isEmpty then [("Steps/Items", (numbered.take 10).map (fun p => p.2))]
   else [])

/-- The `_extract_numeric_fields` pattern table, in source order. -/
def numericPats : List (String × RE) :=
  [ ("Serial Number", reLabelId "Serial"),
    ("Part Number", reLabelId "Part"),
    ("Lot Number", reLabelId "Lot"),
    ("Test Result Value",
      reCat [reLit "Result", rePlus reColSp,
             .group 1 (reCat [rePlus reDig, reCls [.ch '.', .ch ','], rePlus reDig])]),
    ("Hours of Operation",
      reCat [.alt (reLit "Hours") (reLit "Operating Hours"), rePlus reColSp,
             .group 1 (rePlus reDig)]) ]

/-- Embedding of `_extract_numeric_fields` (IGNORECASE search, group 1 kept
unstripped). -/
def extractNumericFields (text : String) : List (String × String) :=
  numericPats.filterMap (fun p =>
    match pySearch true false p.2 text with
    | some m => some (p.1, mGroupS m 1)
    | none => none)

/-- Date-token pattern: a captured day-month-year shape or `\d{4}-\d{1,2}-\d{1,2}`. -/
def reDatePat : RE :=
  .group 1 (.alt reDayMonthYear
    (reCat [reRepN 4 reDig, .ch '-', reRep12 reDig, .ch '-', reRep12 reDig]))

/-- Embedding of `_extract_dates`: every date-shaped token becomes a
sequentially numbered `Date N` entry. -/
def extractDates (text : String) : List (String × String) :=
  (pyFindIter false false reDatePat text).mapIdx
    (fun i m => ("Date " ++ pyNatStr (i + 1), mGroupS m 1))

/-- Strategy 1 of `extract_metadata`: the labeled-field pattern table. -/
def mdStagePats (text : String) : CIRMetadataM :=
  cirFieldPats.foldl
    (fun md p =>
      match extractField p.2 text with
      | some v => if v ≠ "" then addField md p.1 (.s v) "pattern_matching" else md
      | none => md)
    ⟨[], []⟩

/-- Strategy 2 of `extract_metadata`: the generic key:value scan, guarded by a
not-already-present check. -/
def mdStageKV (text : String) (md : CIRMetadataM) : CIRMetadataM :=
  (extractKeyValuePairs text).foldl
    (fun md p =>
      if (md.all_fields.lookup p.1).isSome then md
      else addField md p.1 (.s p.2) "key_value_extraction")
    md

/-- Strategy 3 of `extract_metadata`: list extraction, written unconditionally. -/
def mdStageLists (text : String) (md : CIRMetadataM) : CIRMetadataM :=
  (extractLists text).foldl
    (fun md p =>
      if !p.2.isEmpty then addField md p.1 (.vlist p.2) "list_extraction" else md)
    md

/-- Strategy 4 of `extract_metadata`: numeric extraction, guarded by a
not-already-present check. -/
def mdStageNumeric (text : String) (md : CIRMetadataM) : CIRMetadataM :=
  (extractNumericFields text).foldl
    (fun md p =>
      if (md.all_fields.lookup p.1).isSome then md
      else addField md p.1 (.s p.2) "numeric_extraction")
    md

/-- Strategy 5 of `extract_metadata`: date extraction, written unconditionally. -/
def mdStageDates (text : String) (md : CIRMetadataM) : CIRMetadataM :=
  (extractDates text).foldl
    (fun md p => addField md p.1 (.s p.2) "date_extraction")
    md

/-- Embedding of `AdvancedCIRExtractor.extract_metadata`: the five strategies
in source order. -/
def extractMetadata (text : String) : CIRMetadataM :=
  mdStageDates text (mdStageNumeric text (mdStageLists text (mdStageKV text
    (mdStagePats text))))

/-! ## Embedding of `cim_analyzer.py` (`CIMDocumentAnalyzer`) -/

/-- Split a character list on a separator character, keeping empty pieces
(Python `str.split(sep)`). -/
def splitOnChar (sep : Char) : List Char → List (List Char)
  | [] => [[]]
  | c :: t => if c = sep then [] :: splitOnChar sep t else consSeg c (splitOnChar sep t)

/-- Case-id pattern `CIM\s*[-:]?\s*(\d+)`. -/
def reCaseId1 : RE :=
  reCat [reLit "CIM", .star false reSp, reOpt (reCls [.ch '-', .ch ':']), .star false reSp,
         .group 1 (rePlus reDig)]

/-- Case-id pattern `Case\s*(?:ID|Number)\s*[-:]?\s*([A-Z0-9\-]+)`. -/
def reCaseId2 : RE :=
  reCat [reLit "Case", .star false reSp, .alt (reLit "ID") (reLit "Number"),
         .star false reSp, reOpt (reCls [.ch '-', .ch ':']), .star false reSp,
         .group 1 (rePlus reIdCls)]

/-- Case-id pattern `(\w+[-]\d+[-]\d+)`. -/
def reCaseId3 : RE :=
  .group 1 (reCat [rePlus reWrd, .ch '-', rePlus reDig, .ch '-', rePlus reDig])

/-- The `_extract_case_id` pattern list, in source order. -/
def caseIdPats : List RE := [reCaseId1, reCaseId2, reCaseId3]

/-- Python `repr` of a captured string (the embedded captures contain no
quotes, so the simple single-quoted form applies). -/
def pyReprCap : Option (List Char) → List Char
  | none => "None".data
  | some v => Char.ofNat 39 :: v ++ [Char.ofNat 39]

/-- Python `str(match.groups())`: tuple rendering with a trailing comma for a
one-element tuple. -/
def pyReprTuple (gs : List (Option (List Char))) : List Char :=
  '(' :: (List.intercalate (", ".data) (gs.map pyReprCap) ++
    (if gs.length = 1 then [','] else []) ++ [')'])

/-- Value returned by `_extract_case_id` for a successful match: group 1 when
the character `1` occurs in `str(match.groups())`, otherwise the whole match. -/
def caseIdPick (m : RMatch) : String :=
  if (pyReprTuple (groupsOf m 1)).contains '1' then String.mk (mGroupD m 1)
  else mWholeS m

/-- The pattern loop of `_extract_case_id`. -/
def caseIdGo (text : String) : List RE → String
  | [] => "CIM-UNKNOWN"
  | p :: rest =>
    match pySearch true false p text with
    | some m => caseIdPick m
    | none => caseIdGo text rest

/-- Embedding of `_extract_case_id`: try the three patterns in order; on a
match return group 1 when the character `1` occurs in `str(match.groups())`,
otherwise the whole match; default `"CIM-UNKNOWN"`. -/
def extractCaseId (text : String) : String := caseIdGo text caseIdPats

/-- Embedding of `_extract_title`: the first stripped line of length strictly
between 10 and 200 among the first twenty lines. -/
def extractTitle (text : String) : String :=
  (((splitOnChar '\n' text.data).take 20).findSome? (fun ln =>
    let l := pyStripL ln
    if 10 < l.length ∧ l.length < 200 then some (String.mk l) else none)).getD
    "CIM Case Summary"

/-- The component vocabulary of `_extract_affected_components`. -/
def componentKeywords : List String :=
  ["blade", "rotor", "nacelle", "tower", "foundation",
   "gearbox", "generator", "transformer", "bearing",
   "pitch", "yaw", "brake", "hub", "shaft", "bolt",
   "weld", "connector", "cable", "sensor", "controller"]

/-- The failure vocabulary of `_extract_failure_types`. -/
def failureKeywords : List String :=
  ["fatigue", "corrosion", "fracture", "delamination", "erosion",
   "cracking", "wear", "bearing failure", "misalignment", "vibration",
   "overheating", "electrical failure", "mechanical failure"]

/-- Context pattern `(?:the\s+)?(component[s]?)\s+(?:component|part|assembly|system)`
instantiated at a concrete vocabulary term. -/
def reCompCtx (c : String) : RE :=
  reCat [reOpt (.seq (reLit "the") (rePlus reSp)),
         .group 1 (.seq (reLit c) (reOpt (.ch 's'))), rePlus reSp,
         reAltL [reLit "component", reLit "part", reLit "assembly", reLit "system"]]

/-- Order-canonical duplicate removal (Python's `list(set(...))` has an
unspecified order; this keeps the first occurrence, which is membership-equal). -/
def dedupGo (seen : List String) : List String → List String
  | [] => []
  | x :: t => if seen.contains x then dedupGo seen t else x :: dedupGo (x :: seen) t

/-- Duplicate removal keeping first occurrences. -/
def dedupKF (l : List String) : List String := dedupGo [] l

/-- Embedding of `_extract_affected_components`: a vocabulary term contributes
only when it occurs in the lowered text and its context pattern (term followed
by component/part/assembly/system) matches; the captured occurrence is
title-cased; duplicates are removed. -/
def extractAffectedComponents (text : String) : List String :=
  let tl := pyLower text
  dedupKF (componentKeywords.filterMap (fun c =>
    if strHasSub c tl then
      match pySearch false false (reCompCtx c) tl with
      | some m => some (pyTitle (String.mk (mGroupD m 1)))
      | none => none
    else none))

/-- Embedding of `_extract_failure_types`: vocabulary terms occurring in the
lowered text, title-cased, duplicates removed. -/
def extractFailureTypes (text : String) : List String :=
  let tl := pyLower text
  dedupKF (failureKeywords.filterMap (fun f =>
    if strHasSub f tl then some (pyTitle f) else none))

/-- A compliance requirement (`ComplianceRequirement` dataclass). -/
structure Requirement where
  requirement_id : String
  title : String
  description : String
  requirement_type : String
  applicable_components : List String
  acceptance_criteria : String
  evidence_needed : List String
  source_document : String
  severity : String
  deriving DecidableEq

/-- Generic requirement-emission loop: each kept match increments the shared
counter (`_next_id` increments, then formats) and builds one record from the
incremented value. -/
def emitReqs (mk : RMatch → Option (Nat → Requirement)) :
    List RMatch → Nat → List Requirement × Nat
  | [], c => ([], c)
  | m :: ms, c =>
    match mk m with
    | none => emitReqs mk ms c
    | some f =>
      let r := emitReqs mk ms (c + 1)
      (f (c + 1) :: r.1, r.2)

/-- Test-method pattern 1. -/
def reTest1 : RE :=
  reCat [reAltL [reLit "test", reLit "examination", reLit "inspection"], rePlus reSp,
         reAltL [reLit "method", reLit "procedure", reLit "step"], reOpt (.ch 's'),
         reOpt (.ch ':'), .star false reSp, .group 1 (rePlus reNotNl)]

/-- Test-method pattern 2. -/
def reTest2 : RE :=
  reCat [reAltL [reLit "perform", reLit "conduct", reLit "carry out"], rePlus reSp,
         reOpt (.seq (reLit "the") (rePlus reSp)),
         .group 1 (rePlusLazy (reNCls [.ch ':'])), rePlus reSp, reLit "test"]

/-- Test-method pattern 3. -/
def reTest3 : RE :=
  reCat [reLit "test", .star true reNotNl,
         reAltL [reLit "per", reLit "according to", reLit "as per", reLit "following"],
         rePlus reSp,
         .group 1 (rePlus (reCls [.range 'A' 'Z', .digit, .ch '-', .ch '.']))]

/-- Documentation pattern 1. -/
def reDoc1 : RE :=
  reCat [reAltL [reLit "document", reLit "record", reLit "report"], rePlus reSp,
         .alt (reLit "the") (reLit "all"), rePlus reSp,
         .group 1 (rePlus (reNCls [.ch '\n', .ch '.']))]

/-- Documentation pattern 2. -/
def reDoc2 : RE :=
  reCat [.alt (.seq (reLit "required document") (reOpt (.ch 's'))) (reLit "must include"),
         .star false reSp, reOpt (.ch ':'), .star false reSp,
         .group 1 (rePlus reNotNl)]

/-- Documentation pattern 3. -/
def reDoc3 : RE :=
  reCat [.alt (reLit "submit") (reLit "provide"), rePlus reSp,
         reOpt (.seq (reLit "the") (rePlus reSp)),
         .group 1 (rePlus (reNCls [.ch '\n', .ch '.']))]

/-- Visual-inspection pattern 1. -/
def reVisR1 : RE :=
  reCat [reAltL [reLit "visual inspection", reLit "inspect visually", reLit "look for"],
         .star false reSp, reOpt (.ch ':'), .star false reSp,
         .group 1 (rePlus (reNCls [.ch '\n', .ch '.']))]

/-- Visual-inspection pattern 2. -/
def reVisR2 : RE :=
  reCat [.alt (reLit "check") (reLit "observe"), rePlus reSp,
         .alt (reLit "for") (reLit "the"), rePlus reSp,
         .group 1 (rePlus (reNCls [.ch '\n', .ch '.']))]

/-- Visual-inspection pattern 3. -/
def reVisR3 : RE :=
  reCat [reAltL [reLit "appearance", reLit "condition", reLit "surface"], rePlus reSp,
         .alt (reLit "should") (reLit "must"), rePlus reSp,
         .group 1 (rePlus (reNCls [.ch '\n', .ch '.']))]

/-- Procedural step pattern `(?:step|procedure)\s+(\d+)[:\-\.]?\s*([^\n]+)`. -/
def reProcPat : RE :=
  reCat [.alt (reLit "step") (reLit "procedure"), rePlus reSp,
         .group 1 (rePlus reDig), reOpt (reCls [.ch ':', .ch '-', .ch '.']),
         .star false reSp, .group 2 (rePlus reNotNl)]

/-- Embedding of `_extract_test_methods`. -/
def extractTestMethods (text source : String) (c : Nat) : List Requirement × Nat :=
  emitReqs
    (fun m => some (fun n =>
      { requirement_id := "TEST-" ++ pyFormatZ 3 n
        title := "Test Method"
        description := mGroupS m 1
        requirement_type := "Test Method"
        applicable_components := []
        acceptance_criteria := "Test performed per specification"
        evidence_needed := ["Test report", "Test data", "Technician signature"]
        source_document := source
        severity := "HIGH" }))
    ([reTest1, reTest2, reTest3].flatMap (fun p => pyFindIter true false p text)) c

/-- Embedding of `_extract_documentation_requirements`. -/
def extractDocReqs (text source : String) (c : Nat) : List Requirement × Nat :=
  emitReqs
    (fun m =>
      let desc := pyStrip (mGroupS m 1)
      if 10 < pyLen desc then
        some (fun n =>
          { requirement_id := "DOC-" ++ pyFormatZ 3 n
            title := "Documentation"
            description := desc
            requirement_type := "Documentation"
            applicable_components := []
            acceptance_criteria := "Documentation complete and accurate"
            evidence_needed := ["Document", "Report", "Record"]
            source_document := source
            severity := "HIGH" })
      else none)
    ([reDoc1, reDoc2, reDoc3].flatMap (fun p => pyFindIter true false p text)) c

/-- Embedding of `_extract_visual_inspection_criteria`. -/
def extractVisReqs (text source : String) (c : Nat) : List Requirement × Nat :=
  emitReqs
    (fun m => some (fun n =>
      { requirement_id := "VIS-" ++ pyFormatZ 3 n
        title := "Visual Inspection"
        description := mGroupS m 1
        requirement_type := "Visual Inspection"
        applicable_components := []
        acceptance_criteria := "Visual inspection passed"
        evidence_needed := ["Photo", "Screenshot", "Visual evidence"]
        source_document := source
        severity := "MEDIUM" }))
    ([reVisR1, reVisR2, reVisR3].flatMap (fun p => pyFindIter true false p text)) c

/-- Embedding of `_extract_procedural_requirements`. -/
def extractProcReqs (text source : String) (c : Nat) : List Requirement × Nat :=
  emitReqs
    (fun m =>
      let stepNum := mGroupS m 1
      let desc := pyStrip (mGroupS m 2)
      if 10 < pyLen desc then
        some (fun n =>
          { requirement_id := "PROC-" ++ pyFormatZ 3 n
            title := "Procedure Step " ++ stepNum
            description := desc
            requirement_type := "Procedure"
            applicable_components := []
            acceptance_criteria := "Step completed as specified"
            evidence_needed := ["Completion log", "Signature", "Timestamp"]
            source_document := source
            severity := "HIGH" })
      else none)
    (pyFindIter true false reProcPat text) c

/-- The claim-relevant part of a `CIMAnalysis`: case id, title, components,
failure types and requirements. The display-only side channels (work
instructions, test procedures, acceptance standards, visual criteria and
documentation keyword lists) are consumed by no claim and are not modelled. -/
structure CIMAnalysis where
  cim_case_id : String
  cim_title : String
  affected_components : List String
  failure_types : List String
  requirements : List Requirement
  deriving DecidableEq

/-- Embedding of `analyze_cim_document`: the analyzer's requirement counter
starts at `c0` (`0` for a fresh analyzer; the instance counter is not reset
between runs) and threads through the four category extractors in source
order. The final counter is returned alongside the analysis. -/
def analyzeCIMDocument (c0 : Nat) (text docName : String) : CIMAnalysis × Nat :=
  let t := extractTestMethods text docName c0
  let d := extractDocReqs text docName t.2
  let v := extractVisReqs text docName d.2
  let p := extractProcReqs text docName v.2
  ({ cim_case_id := extractCaseId text
     cim_title := extractTitle text
     affected_components := extractAffectedComponents text
     failure_types := extractFailureTypes text
     requirements := t.1 ++ d.1 ++ v.1 ++ p.1 }, p.2)

/-! ## Embedding of `cir_schema.py` and `cir_validator.py` -/

/-- GO/NO-GO compliance status of the validator (`ComplianceStatus` in
`cir_schema.py`). -/
inductive VStatus where
  | go
  | noGo
  | pendingReview
  deriving DecidableEq

/-- Issue severity levels (`SeverityLevel`). -/
inductive Severity where
  | critical
  | high
  | medium
  | low
  | info
  deriving DecidableEq

/-- A compliance issue (`ComplianceIssue` dataclass; `resolution_status` is the
constant `"OPEN"` default everywhere and is not modelled). -/
structure VIssue where
  issue_id : String
  severity : Severity
  category : String
  description : String
  affected_section : String
  recommended_action : String
  deriving DecidableEq

/-- One executed check (an entry of `checks_performed`). -/
structure VCheck where
  check : String
  status : String
  deriving DecidableEq

/-- Technical data of a CIR document (the fields the validator reads). -/
structure TechnicalData where
  component_name : Option String
  part_number : Option String
  drawing_number : Option String
  description : Option String
  specifications : List (String × String)
  deriving DecidableEq

/-- Change details of a CIR document (the fields the validator reads). -/
structure ChangeDetails where
  change_type : Option String
  reason_for_change : Option String
  affected_areas : List String
  implementation_date : Option String
  change_owner : Option String
  technical_justification : Option String
  deriving DecidableEq

/-- Document metadata (the validator reads only the OCR confidence). -/
structure DocMetadata where
  ocr_confidence : ℚ
  deriving DecidableEq

/-- A CIR document (the fields `CIRComplianceValidator.validate` reads). -/
structure CIRDocument where
  cir_number : String
  technical_data : TechnicalData
  change_details : ChangeDetails
  full_text_content : String
  metadata : DocMetadata
  extraction_errors : List String
  deriving DecidableEq

/-- Validation result (`ComplianceValidation`; the wall-clock timestamp field
is not modelled). -/
structure ComplianceValidation where
  status : VStatus
  score : ℚ
  total_checks : Nat
  passed_checks : Nat
  failed_checks : Nat
  critical_issues : List VIssue
  warnings : List VIssue
  validation_rules_applied : List VCheck
  deriving DecidableEq

/-- Python truthiness of an optional string. -/
def pyTruthyO : Option String → Bool
  | none => false
  | some s => s ≠ ""

/-- Embedding of `_get_recommended_action`. -/
def recommendedAction (sev : Severity) (category : String) : String :=
  match sev with
  | .critical => "MUST be resolved before CIR approval"
  | .high => "Should be resolved before CIR approval"
  | _ =>
    if sev = .medium then "Should be addressed in next revision"
    else "Consider for future improvements"

/-- Embedding of `_add_issue`: append an issue whose id is the zero-padded
running count. -/
def addIssue (issues : List VIssue) (title : String) (sev : Severity)
    (category description : String) : List VIssue :=
  issues ++ [{ issue_id := "ISSUE_" ++ pyFormatZ 4 (issues.length + 1)
               severity := sev
               category := category
               description := description
               affected_section := title
               recommended_action := recommendedAction sev category }]

/-- Embedding of `_check_required_fields` (checks and accumulated issues). -/
def checkRequiredFields (doc : CIRDocument) (issues : List VIssue) :
    List VCheck × List VIssue :=
  let (c1, i1) :=
    if doc.cir_number = "" then
      ([VCheck.mk "CIR Number Present" "FAIL"],
       addIssue issues "Missing CIR Number" .critical "Document"
         "CIR document must have unique CIR number")
    else ([VCheck.mk "CIR Number Present" "PASS"], issues)
  let (c2, i2) :=
    if !pyTruthyO doc.technical_data.component_name then
      ([VCheck.mk "Component Identified" "FAIL"],
       addIssue i1 "Missing Component Name" .critical "Technical Data"
         "Component must be identified")
    else ([VCheck.mk "Component Identified" "PASS"], i1)
  let (c3, i3) :=
    if !pyTruthyO doc.technical_data.part_number &&
        !pyTruthyO doc.technical_data.drawing_number then
      ([VCheck.mk "Part Number Available" "FAIL"],
       addIssue i2 "Missing Part/Drawing Number" .high "Technical Data"
         "Must have part number or drawing number")
    else ([VCheck.mk "Part Number Available" "PASS"], i2)
  let (c4, i4) :=
    if !pyTruthyO doc.change_details.change_type then
      ([VCheck.mk "Change Type Specified" "FAIL"],
       addIssue i3 "Missing Change Type" .high "Change Details"
         "Change type must be specified")
    else ([VCheck.mk "Change Type Specified" "PASS"], i3)
  let (c5, i5) :=
    if !pyTruthyO doc.change_details.reason_for_change then
      ([VCheck.mk "Change Reason Documented" "FAIL"],
       addIssue i4 "Missing Change Reason" .high "Change Details"
         "Reason for change must be documented")
    else ([VCheck.mk "Change Reason Documented" "PASS"], i4)
  let (c6, i6) :=
    if !pyTruthyO doc.change_details.technical_justification then
      ([VCheck.mk "Technical Justification" "FAIL"],
       addIssue i5 "Missing Technical Justification" .critical "Change Details"
         "Technical justification is mandatory")
    else ([VCheck.mk "Technical Justification" "PASS"], i5)
  (c1 ++ c2 ++ c3 ++ c4 ++ c5 ++ c6, i6)

/-- Embedding of `_check_technical_data`. -/
def checkTechnicalData (doc : CIRDocument) (issues : List VIssue) :
    List VCheck × List VIssue :=
  let descOk :=
    match doc.technical_data.description with
    | none => false
    | some d => d ≠ "" && decide (10 < pyLen (pyStrip d))
  let (c1, i1) :=
    if descOk then ([VCheck.mk "Component Description" "PASS"], issues)
    else
      ([VCheck.mk "Component Description" "FAIL"],
       addIssue issues "Insufficient Description" .medium "Technical Data"
         "Component description should be more detailed")
  let (c2, i2) :=
    if !doc.technical_data.specifications.isEmpty then
      ([VCheck.mk "Specifications Provided" "PASS"], i1)
    else
      ([VCheck.mk "Specifications Provided" "FAIL"],
       addIssue i1 "Missing Specifications" .medium "Technical Data"
         "Technical specifications should be included")
  (c1 ++ c2, i2)

/-- Embedding of `_check_change_details`. -/
def checkChangeDetails (doc : CIRDocument) (issues : List VIssue) :
    List VCheck × List VIssue :=
  let (c1, i1) :=
    if pyTruthyO doc.change_details.implementation_date then
      ([VCheck.mk "Implementation Date Set" "PASS"], issues)
    else
      ([VCheck.mk "Implementation Date Set" "FAIL"],
       addIssue issues "Missing Implementation Date" .high "Change Details"
         "Implementation date must be specified")
  let (c2, i2) :=
    if pyTruthyO doc.change_details.change_owner then
      ([VCheck.mk "Change Owner Assigned" "PASS"], i1)
    else
      ([VCheck.mk "Change Owner Assigned" "FAIL"],
       addIssue i1 "Missing Change Owner" .high "Change Details"
         "Change owner must be assigned")
  let (c3, i3) :=
    if !doc.change_details.affected_areas.isEmpty then
      ([VCheck.mk "Affected Areas Documented" "PASS"], i2)
    else
      ([VCheck.mk "Affected Areas Documented" "FAIL"],
       addIssue i2 "No Affected Areas Listed" .medium "Change Details"
         "Should document areas affected by change")
  (c1 ++ c2 ++ c3, i3)

/-- Embedding of `_check_documentation`. -/
def checkDocumentation (doc : CIRDocument) (issues : List VIssue) :
    List VCheck × List VIssue :=
  let textLength := pyLen (pyStrip doc.full_text_content)
  let (c1, i1) :=
    if 500 < textLength then ([VCheck.mk "Documentation Complete" "PASS"], issues)
    else
      ([VCheck.mk "Documentation Complete" "FAIL"],
       addIssue issues "Insufficient Documentation" .medium "Documentation"
         "Document seems incomplete or truncated")
  let keyTerms := ["change", "impact", "risk", "verification", "approval"]
  let foundTerms :=
    (keyTerms.filter (fun t => strHasSub (pyLower t) (pyLower doc.full_text_content))).length
  let (c2, i2) :=
    if 3 ≤ foundTerms then ([VCheck.mk "Key Documentation Elements" "PASS"], i1)
    else
      ([VCheck.mk "Key Documentation Elements" "FAIL"],
       addIssue i1 "Missing Key Documentation" .medium "Documentation"
         ("Found " ++ pyNatStr foundTerms ++ "/5 expected documentation elements"))
  (c1 ++ c2, i2)

/-- Embedding of `_check_approvals`. -/
def checkApprovals (doc : CIRDocument) (issues : List VIssue) :
    List VCheck × List VIssue :=
  let hasApproval :=
    ["approved", "signed", "authorized", "reviewed", "confirmed"].any
      (fun kw => strHasSub kw (pyLower doc.full_text_content))
  if hasApproval then ([VCheck.mk "Approval Evidence" "PASS"], issues)
  else
    ([VCheck.mk "Approval Evidence" "FAIL"],
     addIssue issues "No Approval Evidence Found" .high "Approvals"
       "Document should show approval signatures or evidence")

/-- Embedding of `_check_quality` (the issue descriptions embed the confidence
value only through its `%.1f` rendering, which is display-only and replaced by
a fixed marker here). -/
def checkQuality (doc : CIRDocument) (issues : List VIssue) :
    List VCheck × List VIssue :=
  let (c1, i1) :=
    if 80 ≤ doc.metadata.ocr_confidence then
      ([VCheck.mk "Text Extraction Quality" "PASS"], issues)
    else if 60 ≤ doc.metadata.ocr_confidence then
      ([VCheck.mk "Text Extraction Quality" "WARN"],
       addIssue issues "Low OCR Confidence" .medium "Quality"
         "OCR confidence - manual review recommended")
    else
      ([VCheck.mk "Text Extraction Quality" "FAIL"],
       addIssue issues "Very Low OCR Confidence" .high "Quality"
         "OCR confidence - document may be unreadable")
  let (c2, i2) :=
    if doc.extraction_errors.isEmpty then
      ([VCheck.mk "No Extraction Errors" "PASS"], i1)
    else
      ([VCheck.mk "No Extraction Errors" "FAIL"],
       addIssue i1 (pyNatStr doc.extraction_errors.length ++ " Extraction Errors")
         .medium "Quality" "Some content may not have been extracted correctly")
  (c1 ++ c2, i2)

/-- The compliance thresholds of `VESTAS_CIR_RULES` (the validator reads only
the GO score minimum). -/
def vestasGoScoreMinimum : ℚ := 85

/-- Embedding of `_determine_status` of the validator, with the default
`VESTAS_CIR_RULES` threshold. -/
def determineVStatus (score : ℚ) (criticalIssues : List VIssue) : VStatus :=
  if !criticalIssues.isEmpty then .noGo
  else if score < vestasGoScoreMinimum then .noGo
  else .go

/-- The six check groups of `validate`, run in source order with the issue
list threaded through; the first component collects `checks_performed`. -/
def vGroups (doc : CIRDocument) : List VCheck × List VIssue :=
  let r1 := checkRequiredFields doc []
  let r2 := checkTechnicalData doc r1.2
  let r3 := checkChangeDetails doc r2.2
  let r4 := checkDocumentation doc r3.2
  let r5 := checkApprovals doc r4.2
  let r6 := checkQuality doc r5.2
  (r1.1 ++ (r2.1 ++ (r3.1 ++ (r4.1 ++ (r5.1 ++ r6.1)))), r6.2)

/-- Embedding of `CIRComplianceValidator.validate` with the default rules. -/
def validateCIR (doc : CIRDocument) : ComplianceValidation :=
  let checks := (vGroups doc).1
  let issues := (vGroups doc).2
  let passed := (checks.filter (fun c => c.status = "PASS")).length
  let score : ℚ := if !checks.isEmpty then (passed : ℚ) / (checks.length : ℚ) * 100 else 0
  let criticalIssues := issues.filter (fun i => i.severity = .critical)
  let warnings := issues.filter (fun i => i.severity ≠ .critical)
  { status := determineVStatus score criticalIssues
    score := score
    total_checks := checks.length
    passed_checks := passed
    failed_checks := checks.length - passed
    critical_issues := criticalIssues
    warnings := warnings
    validation_rules_applied := checks }


/-! ## Embedding of `cir_cim_pipeline.py` and `cir_batch_processor.py`

The per-document loop bodies perform I/O (PDF text extraction) before the
pure analysis; a document's processing outcome is therefore embedded as an
`Except`, an exception message or the successful payload, and the batch
drivers are functions over the list of outcomes. -/

/-- The per-document result fields of the pipeline's batch entries that
`get_summary_statistics` reads. -/
structure DocResult where
  go_nogo : String
  compliance_score : ℚ
  met_requirements : Nat
  partial_requirements : Nat
  not_met_requirements : Nat
  total_requirements : Nat
  deriving DecidableEq

/-- One entry of the pipeline's batch result list: the full result dict, or
the two-key error dict `cir_file`/`error` recorded for a failed document. -/
inductive BatchEntry where
  | ok (cir_file : String) (r : DocResult)
  | err (cir_file : String) (msg : String)
  deriving DecidableEq

/-- The entry the `analyze_batch` loop records for one document. -/
def pipeEntry (o : String × Except String DocResult) : BatchEntry :=
  match o.2 with
  | .ok r => .ok o.1 r
  | .error e => .err o.1 e

/-- Embedding of the `analyze_batch` loop over per-document outcomes: each
document appends exactly one entry and the loop always continues. -/
def analyzeBatch (outcomes : List (String × Except String DocResult)) :
    List BatchEntry :=
  outcomes.foldl
    (fun results o =>
      match o.2 with
      | .ok r => results ++ [.ok o.1 r]
      | .error e => results ++ [.err o.1 e])
    []

/-- Summary fields of `get_summary_statistics`. -/
structure BatchStats where
  total_analyzed : Nat
  go_count : Nat
  nogo_count : Nat
  go_percentage : ℚ
  average_compliance_score : ℚ
  total_met_requirements : Nat
  total_partial_requirements : Nat
  total_not_met_requirements : Nat
  deriving DecidableEq

/-- The valid results: entries whose dict has no `error` key. -/
def validResults (results : List BatchEntry) : List DocResult :=
  results.filterMap (fun e =>
    match e with
    | .ok _ r => some r
    | .err _ _ => none)

/-- Embedding of `get_summary_statistics` (`none` models the
`No valid results` error dictionary). -/
def getSummaryStatistics (results : List BatchEntry) : Option BatchStats :=
  let valid := validResults results
  if valid.isEmpty then none
  else
    some
      { total_analyzed := valid.length
        go_count := (valid.filter (fun r => r.go_nogo = "GO")).length
        nogo_count := (valid.filter (fun r => r.go_nogo = "NO-GO")).length
        go_percentage :=
          ((valid.filter (fun r => r.go_nogo = "GO")).length : ℚ) /
            (valid.length : ℚ) * 100
        average_compliance_score :=
          (valid.map (fun r => r.compliance_score)).sum / (valid.length : ℚ)
        total_met_requirements := (valid.map (fun r => r.met_requirements)).sum
        total_partial_requirements :=
          (valid.map (fun r => r.partial_requirements)).sum
        total_not_met_requirements :=
          (valid.map (fun r => r.not_met_requirements)).sum }

/-- Success payload of `CIRBatchProcessor.process_single_pdf`: the fields the
directory loop reads. -/
structure SingleOk where
  filename : String
  cir_number : String
  comp_status : String
  comp_score : ℚ
  deriving DecidableEq

/-- Result dict of `process_single_pdf`: `status` success, or `status` error
with the exception message. -/
inductive SingleResult where
  | success (r : SingleOk)
  | errorR (filename : String) (msg : String)
  deriving DecidableEq

/-- Embedding of `process_single_pdf`: any exception in its body is caught and
becomes the error dict carrying the message. -/
def processSingle (filename : String) (outcome : Except String SingleOk) :
    SingleResult :=
  match outcome with
  | .ok r => .success r
  | .error e => .errorR filename e

/-- One entry of the processor summary's `files` list. -/
structure ProcFile where
  filename : String
  cir_number : String
  status : String
  score : ℚ
  deriving DecidableEq

/-- The processor summary counters (timestamps are not modelled). -/
structure ProcSummary where
  total_files : Nat
  successfully_processed : Nat
  failed : Nat
  go_count : Nat
  nogo_count : Nat
  files : List ProcFile
  deriving DecidableEq

/-- One iteration of the `process_directory` summary update. -/
def procStep (s : ProcSummary) (res : SingleResult) : ProcSummary :=
  match res with
  | .success r =>
    { s with
      successfully_processed := s.successfully_processed + 1
      go_count := if r.comp_status = "GO" then s.go_count + 1 else s.go_count
      nogo_count := if r.comp_status = "GO" then s.nogo_count else s.nogo_count + 1
      files := s.files ++
        [{ filename := r.filename, cir_number := r.cir_number,
           status := r.comp_status, score := r.comp_score }] }
  | .errorR _ _ => { s with failed := s.failed + 1 }

/-- Embedding of `CIRBatchProcessor.process_directory` over per-document
outcomes (the outer per-file exception handler is unreachable here because
`process_single_pdf` already catches everything and no progress callback is
modelled). -/
def processDirectory (outcomes : List (String × Except String SingleOk)) :
    ProcSummary × List SingleResult :=
  let results := outcomes.map (fun o => processSingle o.1 o.2)
  (results.foldl procStep
    { total_files := outcomes.length, successfully_processed := 0, failed := 0,
      go_count := 0, nogo_count := 0, files := [] }, results)

/-! ## Requirement-identifier decoding helpers -/

/-- The consecutive naturals `s, s+1, ..., s+k-1`. -/
def natsFrom (s : Nat) : Nat → List Nat
  | 0 => []
  | k + 1 => s :: natsFrom (s + 1) k

/-- Decimal value of a digit list (most significant first). -/
def valDigits (l : List Char) : Nat :=
  l.foldl (fun a c => 10 * a + (c.toNat - 48)) 0

/-- The digits after the final dash of an identifier. -/
def idNumPart (s : String) : List Char :=
  (s.data.reverse.takeWhile (fun c => c ≠ '-')).reverse

/-- The numeric counter component of a requirement identifier. -/
def idNum (s : String) : Nat := valDigits (idNumPart s)

/-- The identifier tag of each requirement category. -/
def catTag (ty : String) : String :=
  if ty = "Test Method" then "TEST-"
  else if ty = "Documentation" then "DOC-"
  else if ty = "Visual Inspection" then "VIS-"
  else if ty = "Procedure" then "PROC-"
  else ""

/-! ## Auxiliary lemmas -/

/-- Lookup in an appended association list sticks to the left part when the key
is bound there. -/
theorem lookup_append_of_isSome {β : Type} (m l : List (String × β)) (k : String)
    (h : (m.lookup k).isSome) : (m ++ l).lookup k = m.lookup k := by
  induction m with
  | nil => simp [List.lookup] at h
  | cons a t ih =>
    by_cases hk : k == a.1
    · simp [List.lookup, hk]
    · simp only [List.lookup, hk, List.cons_append] at *
      exact ih h

/-- Containment in an empty string holds only for the empty string. -/
theorem strHasSub_empty_iff (sub : String) : strHasSub sub "" = true ↔ sub = "" := by
  cases sub with
  | mk data =>
    cases data with
    | nil => simp [strHasSub, listHasSub, listStartsWith]
    | cons c t =>
      simp only [strHasSub, listHasSub, listStartsWith]
      constructor
      · intro h
        exact absurd h (by decide)
      · intro h
        have h2 := congrArg String.data h
        simp at h2

/-- Lowercasing preserves emptiness. -/
theorem pyLower_eq_empty_iff (s : String) : pyLower s = "" ↔ s = "" := by
  cases s with
  | mk data =>
    cases data with
    | nil => simp [pyLower]
    | cons c t =>
      constructor
      · intro h
        have h2 := congrArg String.data h
        simp [pyLower] at h2
      · intro h
        have h2 := congrArg String.data h
        simp at h2

/-- The required-fields group always performs 6 checks. -/
theorem checkRequiredFields_len (doc : CIRDocument) (i : List VIssue) :
    ((checkRequiredFields doc i).1).length = 6 := by
  rw [checkRequiredFields]; split_ifs <;> rfl

/-- The technical-data group always performs 2 checks. -/
theorem checkTechnicalData_len (doc : CIRDocument) (i : List VIssue) :
    ((checkTechnicalData doc i).1).length = 2 := by
  rw [checkTechnicalData]; split_ifs <;> rfl

/-- The change-details group always performs 3 checks. -/
theorem checkChangeDetails_len (doc : CIRDocument) (i : List VIssue) :
    ((checkChangeDetails doc i).1).length = 3 := by
  rw [checkChangeDetails]; split_ifs <;> rfl

/-- The documentation group always performs 2 checks. -/
theorem checkDocumentation_len (doc : CIRDocument) (i : List VIssue) :
    ((checkDocumentation doc i).1).length = 2 := by
  rw [checkDocumentation]
  split_ifs <;> first
    | rfl
    | (split_ifs <;> rfl)
    | (simp only []; split_ifs <;> rfl)

/-- The approvals group always performs 1 check. -/
theorem checkApprovals_len (doc : CIRDocument) (i : List VIssue) :
    ((checkApprovals doc i).1).length = 1 := by
  rw [checkApprovals]; split_ifs <;> rfl

/-- The quality group always performs 2 checks. -/
theorem checkQuality_len (doc : CIRDocument) (i : List VIssue) :
    ((checkQuality doc i).1).length = 2 := by
  rw [checkQuality]; split_ifs <;> rfl

/-- The validator's check battery always has 16 checks. -/
theorem vGroups_len (doc : CIRDocument) : ((vGroups doc).1).length = 16 := by
  rw [vGroups]
  simp only [List.length_append, checkRequiredFields_len, checkTechnicalData_len,
    checkChangeDetails_len, checkDocumentation_len, checkApprovals_len, checkQuality_len]

/-- The validator's check battery is never empty. -/
theorem vGroups_ne (doc : CIRDocument) : ((vGroups doc).1).isEmpty = false := by
  cases h : (vGroups doc).1 with
  | nil =>
    have := vGroups_len doc
    rw [h] at this
    simp at this
  | cons a t => rfl

/-- The validator status is NO-GO exactly when a critical issue exists or the
score is below the default threshold 85. -/
theorem determineVStatus_noGo_iff (s : ℚ) (c : List VIssue) :
    determineVStatus s c = .noGo ↔ (c ≠ [] ∨ s < 85) := by
  rw [determineVStatus, vestasGoScoreMinimum]
  split_ifs with h1 h2
  · have hne : c ≠ [] := by
      intro hecon
      rw [hecon] at h1
      exact absurd h1 (by decide)
    exact ⟨fun _ => Or.inl hne, fun _ => rfl⟩
  · exact ⟨fun _ => Or.inr h2, fun _ => rfl⟩
  · have hceq : c = [] := by
      cases c with
      | nil => rfl
      | cons a t => exact absurd (by rfl : (!(a :: t).isEmpty) = true) h1
    constructor
    · intro hx
      exact absurd hx (by decide)
    · rintro (hc | hs)
      · exact absurd hceq hc
      · exact absurd hs h2

/-- The validator status is GO exactly when no critical issue exists and the
score is at least the default threshold 85. -/
theorem determineVStatus_go_iff (s : ℚ) (c : List VIssue) :
    determineVStatus s c = .go ↔ (c = [] ∧ 85 ≤ s) := by
  rw [determineVStatus, vestasGoScoreMinimum]
  split_ifs with h1 h2
  · constructor
    · intro hx
      exact absurd hx (by decide)
    · rintro ⟨hc, _⟩
      rw [hc] at h1
      exact absurd h1 (by decide)
  · constructor
    · intro hx
      exact absurd hx (by decide)
    · rintro ⟨_, hs⟩
      exact absurd hs (not_le.mpr h2)
  · have hceq : c = [] := by
      cases c with
      | nil => rfl
      | cons a t => exact absurd (by rfl : (!(a :: t).isEmpty) = true) h1
    exact ⟨fun _ => ⟨hceq, le_of_not_lt h2⟩, fun _ => rfl⟩

/-! ## Claim theorems: evidence matcher, validator, applicability filter -/

/-- C1. Status determination of the `EvidenceMatcher`: writing `found` for the
number of evidence items found and `expected` for `max 1` times the number of
expected-evidence entries, an empty evidence list yields Unable to Verify with
confidence 30 regardless of `expected`; otherwise with
`ratio = found / expected`, `ratio ≥ 9/10` yields Met with confidence
`90 + min 10 (found*5)`, `1/2 ≤ ratio < 9/10` (including exactly `1/2`)
yields Partial with confidence `60 + ratio*30`, and `ratio < 1/2` yields
Not Met with confidence `min 50 (10 + found*10)`. -/
theorem evidence_status_thresholds (reqType cirText : String)
    (found expected : List String) :
    (found = [] →
      determineStatus reqType found expected cirText = (.unableToVerify, 30)) ∧
    (found ≠ [] →
      (let ratio : ℚ := (found.length : ℚ) / ((max 1 expected.length : Nat) : ℚ)
       (9/10 ≤ ratio →
         determineStatus reqType found expected cirText =
           (.met, 90 + ((min 10 (found.length * 5) : Nat) : ℚ))) ∧
       (1/2 ≤ ratio → ratio < 9/10 →
         determineStatus reqType found expected cirText =
           (.partialC, 60 + ratio * 30)) ∧
       (ratio < 1/2 →
         determineStatus reqType found expected cirText =
           (.notMet, ((min 50 (10 + found.length * 10) : Nat) : ℚ))))) := by
  constructor
  · intro h
    simp [determineStatus, h]
  · intro h
    refine ⟨fun h9 => ?_, fun h5 h9 => ?_, fun h5 => ?_⟩
    · rw [determineStatus, if_neg h, if_pos h9]
    · rw [determineStatus, if_neg h, if_neg (by exact not_le.mpr h9), if_pos h5]
    · rw [determineStatus, if_neg h, if_neg (by push_neg; linarith),
        if_neg (by push_neg; exact h5)]

/-- C1 witness: one item found against two expected gives ratio exactly 1/2,
hence Partial with confidence 75. -/
theorem evidence_status_thresholds_witness :
    determineStatus "Test Method" ["Found: bolt"] ["Test report", "Test data"] "" =
      (.partialC, 75) := by
  have h := (evidence_status_thresholds "Test Method" "" ["Found: bolt"]
    ["Test report", "Test data"]).2 (by decide)
  have h2 := h.2.1 (by norm_num) (by norm_num)
  rw [h2]
  norm_num

/-- C2. Summary aggregation of the `EvidenceMatcher`: the compliance score is
`(met + 0.5*partial) / total * 100` over the assessed requirements and `0`
when there are none; `go_nogo` is `"GO"` exactly when the score is at least 85
and no requirement is Not Met. Unable-to-Verify items count toward the total
(the denominator) but not the numerator, and nothing else enters the verdict,
so they do not by themselves force `"NO-GO"`. -/
theorem summary_score_gonogo (evidenceList : List ComplianceEvidence) :
    (generateSummary evidenceList).total_requirements = evidenceList.length ∧
    (generateSummary evidenceList).unable_to_verify =
      (evidenceList.filter (fun e => e.status = .unableToVerify)).length ∧
    (generateSummary evidenceList).compliance_score =
      (if evidenceList.length = 0 then 0 else
        (((evidenceList.filter (fun e => e.status = .met)).length : ℚ) +
          (1/2) * ((evidenceList.filter (fun e => e.status = .partialC)).length : ℚ)) /
          (evidenceList.length : ℚ) * 100) ∧
    ((generateSummary evidenceList).go_nogo = "GO" ↔
      (85 ≤ (generateSummary evidenceList).compliance_score ∧
        (evidenceList.filter (fun e => e.status = .notMet)).length = 0)) := by
  refine ⟨rfl, rfl, ?_, ?_⟩
  · by_cases h : evidenceList.length = 0
    · simp [generateSummary, h]
    · have hpos : 0 < evidenceList.length := Nat.pos_of_ne_zero h
      have hmax : max 1 evidenceList.length = evidenceList.length :=
        Nat.max_eq_right hpos
      simp only [generateSummary, hpos, if_true, if_neg h, hmax]
      ring
  · simp only [generateSummary]
    split_ifs with h1 h2 h3
    · exact ⟨fun _ => h2, fun _ => rfl⟩
    · exact ⟨fun hx => absurd hx (by decide), fun hx => absurd hx h2⟩
    · exact ⟨fun _ => h3, fun _ => rfl⟩
    · exact ⟨fun hx => absurd hx (by decide), fun hx => absurd hx h3⟩

/-- C3. The `ComplianceValidator` verdict: the check battery always runs 16
checks (so it is never empty and the zero-checks fallback never fires), the
score is exactly `passed_checks / total_checks * 100`, the status is NO-GO
exactly when a critical issue exists or the score is below 85, and GO exactly
otherwise; in particular one critical issue forces NO-GO regardless of score. -/
theorem validator_score_verdict (doc : CIRDocument) :
    (validateCIR doc).total_checks = 16 ∧
    (validateCIR doc).score =
      ((validateCIR doc).passed_checks : ℚ) / ((validateCIR doc).total_checks : ℚ) * 100 ∧
    ((validateCIR doc).status = .noGo ↔
      ((validateCIR doc).critical_issues ≠ [] ∨ (validateCIR doc).score < 85)) ∧
    ((validateCIR doc).status = .go ↔
      ((validateCIR doc).critical_issues = [] ∧ 85 ≤ (validateCIR doc).score)) := by
  refine ⟨?_, ?_, ?_, ?_⟩
  · simp only [validateCIR]
    exact vGroups_len doc
  · simp only [validateCIR, vGroups_ne doc]
    rfl
  · simp only [validateCIR]
    exact determineVStatus_noGo_iff _ _
  · simp only [validateCIR]
    exact determineVStatus_go_iff _ _

/-- C10. When the requirements document declares at least one (nonempty)
affected component and the evidence metadata has no `Component Type` entry, or
an empty one, every requirement is filtered out before scoring: the evidence
list is empty and the summary reports zero totals, score 0, and `"NO-GO"`. -/
theorem component_mismatch_empty (cirText : String)
    (cirMetadata : List (String × String)) (reqs : List ReqInput) (cim : CimMeta)
    (hne : cim.affected_components ≠ [])
    (hall : ∀ c ∈ cim.affected_components, c ≠ "")
    (hmd : cirMetadata.lookup "Component Type" = none ∨
           cirMetadata.lookup "Component Type" = some "") :
    assessCompliance cirText cirMetadata reqs cim =
      ([], { total_requirements := 0, met := 0, partialCount := 0, not_met := 0,
             unable_to_verify := 0, compliance_score := 0, go_nogo := "NO-GO" }) := by
  have hcomp : pyLower ((cirMetadata.lookup "Component Type").getD "") = "" := by
    rcases hmd with h | h <;> simp [h, pyLower]
  have hfilter : filterApplicable reqs cirMetadata cim = [] := by
    rw [filterApplicable, hcomp]
    have hany : (cim.affected_components.map pyLower).any
        (fun c => strHasSub c "") = false := by
      rw [List.any_eq_false]
      intro c hc
      rcases List.mem_map.mp hc with ⟨c0, hc0, rfl⟩
      intro hcon
      have h1 := (strHasSub_empty_iff (pyLower c0)).mp hcon
      exact hall c0 hc0 ((pyLower_eq_empty_iff c0).mp h1)
    have hemp : (cim.affected_components.map pyLower).isEmpty = false := by
      cases h : cim.affected_components with
      | nil => exact absurd h hne
      | cons a t => simp [h]
    simp [hany, hemp]
  rw [assessCompliance, hfilter]
  rfl

/-- C10 witness: a single blade requirement against evidence metadata with no
`Component Type` entry yields the empty assessment and a NO-GO zero summary. -/
theorem component_mismatch_empty_witness :
    assessCompliance "some evidence text" [("Turbine ID", "T1")]
      [{ requirement_id := "TEST-001", title := "Test Method",
         requirement_type := "Test Method", description := "perform the bolt test",
         evidence_needed := ["Test report"] }]
      { affected_components := ["Blade"] } =
      ([], { total_requirements := 0, met := 0, partialCount := 0, not_met := 0,
             unable_to_verify := 0, compliance_score := 0, go_nogo := "NO-GO" }) :=
  component_mismatch_empty "some evidence text" [("Turbine ID", "T1")]
    [{ requirement_id := "TEST-001", title := "Test Method",
       requirement_type := "Test Method", description := "perform the bolt test",
       evidence_needed := ["Test report"] }]
    { affected_components := ["Blade"] }
    (by decide) (by decide) (Or.inl (by decide))

/-! ## Dictionary and fold lemmas for the metadata extractor -/

/-- Replacing the binding of `k` updates a present key's lookup. -/
theorem lookup_map_replace (m : List (String × String)) (k v : String)
    (h : (m.lookup k).isSome = true) :
    (m.map (fun p => if p.1 = k then (k, v) else p)).lookup k = some v := by
  induction m with
  | nil => simp [List.lookup] at h
  | cons a t ih =>
    simp only [List.map_cons]
    by_cases hk : a.1 = k
    · rw [if_pos hk]
      simp [List.lookup]
    · rw [if_neg hk]
      have hne : (k == a.1) = false := by
        rw [beq_eq_false_iff_ne]
        exact fun hcon => hk hcon.symm
      simp only [List.lookup, hne] at h ⊢
      exact ih h

/-- Appending a fresh binding makes it the lookup result. -/
theorem lookup_append_single_of_none (m : List (String × String)) (k v : String)
    (h : m.lookup k = none) : (m ++ [(k, v)]).lookup k = some v := by
  induction m with
  | nil => simp [List.lookup]
  | cons a t ih =>
    simp only [List.cons_append, List.lookup] at h ⊢
    cases hk : (k == a.1) with
    | true => rw [hk] at h; simp at h
    | false =>
      rw [hk] at h
      simp only [] at h
      exact ih h

/-- A dictionary update binds its key. -/
theorem lookup_dictSetS_self (m : List (String × String)) (k v : String) :
    (dictSetS m k v).lookup k = some v := by
  rw [dictSetS]
  split_ifs with h
  · exact lookup_map_replace m k v h
  · apply lookup_append_single_of_none
    cases hl : m.lookup k with
    | none => rfl
    | some w => rw [hl] at h; simp at h

/-- Replacing the binding of `k` leaves other keys untouched. -/
theorem lookup_map_replace_ne (m : List (String × String)) (k v k' : String)
    (h : k' ≠ k) :
    (m.map (fun p => if p.1 = k then (k, v) else p)).lookup k' = m.lookup k' := by
  induction m with
  | nil => rfl
  | cons a t ih =>
    simp only [List.map_cons]
    by_cases hk : a.1 = k
    · rw [if_pos hk]
      have h1 : (k' == k) = false := beq_eq_false_iff_ne.mpr h
      have h2 : (k' == a.1) = false := by rw [hk]; exact h1
      simp only [List.lookup, h1, h2]
      exact ih
    · rw [if_neg hk]
      simp only [List.lookup]
      cases hx : (k' == a.1) with
      | true => rfl
      | false => exact ih

/-- Appending a binding for `k` leaves other keys untouched. -/
theorem lookup_append_single_ne (m : List (String × String)) (k v k' : String)
    (h : k' ≠ k) : (m ++ [(k, v)]).lookup k' = m.lookup k' := by
  induction m with
  | nil =>
    simp only [List.nil_append, List.lookup, beq_eq_false_iff_ne.mpr h]
  | cons a t ih =>
    simp only [List.cons_append, List.lookup]
    cases hx : (k' == a.1) with
    | true => rfl
    | false => exact ih

/-- A dictionary update leaves other keys untouched. -/
theorem lookup_dictSetS_ne (m : List (String × String)) (k v k' : String)
    (h : k' ≠ k) : (dictSetS m k v).lookup k' = m.lookup k' := by
  rw [dictSetS]
  split_ifs with hs
  · exact lookup_map_replace_ne m k v k' h
  · exact lookup_append_single_ne m k v k' h

/-- Entries of an updated dictionary come from the original or the update. -/
theorem mem_dictSetS (m : List (String × String)) (k v : String) (p : String × String)
    (h : p ∈ dictSetS m k v) : p ∈ m ∨ p = (k, v) := by
  rw [dictSetS] at h
  split_ifs at h with hs
  · rcases List.mem_map.mp h with ⟨q, hq, hpq⟩
    by_cases hk : q.1 = k
    · right; rw [← hpq, if_pos hk]
    · left; rw [← hpq, if_neg hk]; exact hq
  · rcases List.mem_append.mp h with h1 | h1
    · left; exact h1
    · right; simpa using h1

/-- The key:value collection loop never drops a present key. -/
theorem kvFold_isSome_mono (ms : List RMatch) :
    ∀ (pairs : List (String × String)) (k : String),
      (pairs.lookup k).isSome = true →
      (((ms.foldl (fun pairs m =>
          if kvKeep (pyStrip (mGroupS m 1)) (pyStrip (mGroupS m 2)) then
            dictSetS pairs (normalizeKey (pyStrip (mGroupS m 1))) (pyStrip (mGroupS m 2))
          else pairs) pairs).lookup k).isSome = true) := by
  induction ms with
  | nil => intro pairs k h; exact h
  | cons m rest ih =>
    intro pairs k h
    simp only [List.foldl_cons]
    split_ifs with hkeep
    · apply ih
      by_cases hk : k = normalizeKey (pyStrip (mGroupS m 1))
      · rw [hk, lookup_dictSetS_self]; rfl
      · rw [lookup_dictSetS_ne _ _ _ _ hk]; exact h
    · exact ih _ _ h

/-- A kept match's normalized key is present after the collection loop. -/
theorem kvFold_adds (ms : List RMatch) :
    ∀ (pairs : List (String × String)) (m : RMatch), m ∈ ms →
      kvKeep (pyStrip (mGroupS m 1)) (pyStrip (mGroupS m 2)) = true →
      (((ms.foldl (fun pairs m =>
          if kvKeep (pyStrip (mGroupS m 1)) (pyStrip (mGroupS m 2)) then
            dictSetS pairs (normalizeKey (pyStrip (mGroupS m 1))) (pyStrip (mGroupS m 2))
          else pairs) pairs).lookup
        (normalizeKey (pyStrip (mGroupS m 1)))).isSome = true) := by
  induction ms with
  | nil => intro _ _ hm; cases hm
  | cons m0 rest ih =>
    intro pairs m hm hk
    rcases List.mem_cons.mp hm with rfl | hm2
    · simp only [List.foldl_cons, if_pos hk]
      apply kvFold_isSome_mono
      rw [lookup_dictSetS_self]
      rfl
    · simp only [List.foldl_cons]
      split_ifs with hkeep0
      · exact ih _ m hm2 hk
      · exact ih _ m hm2 hk

/-- Every entry produced by the collection loop stems from a kept match. -/
theorem kvFold_src (ms : List RMatch) :
    ∀ (pairs : List (String × String)) (p : String × String),
      p ∈ ms.foldl (fun pairs m =>
          if kvKeep (pyStrip (mGroupS m 1)) (pyStrip (mGroupS m 2)) then
            dictSetS pairs (normalizeKey (pyStrip (mGroupS m 1))) (pyStrip (mGroupS m 2))
          else pairs) pairs →
      p ∈ pairs ∨ ∃ m ∈ ms,
        kvKeep (pyStrip (mGroupS m 1)) (pyStrip (mGroupS m 2)) = true ∧
        p.1 = normalizeKey (pyStrip (mGroupS m 1)) ∧ p.2 = pyStrip (mGroupS m 2) := by
  induction ms with
  | nil => intro pairs p hp; left; exact hp
  | cons m0 rest ih =>
    intro pairs p hp
    simp only [List.foldl_cons] at hp
    split_ifs at hp with hkeep
    · rcases ih _ _ hp with hin | ⟨m2, hm2, hrest⟩
      · rcases mem_dictSetS _ _ _ _ hin with h1 | h1
        · left; exact h1
        · right
          exact ⟨m0, List.mem_cons_self m0 rest, hkeep, by rw [h1], by rw [h1]⟩
      · right; exact ⟨m2, List.mem_cons_of_mem m0 hm2, hrest⟩
    · rcases ih _ _ hp with hin | ⟨m2, hm2, hrest⟩
      · left; exact hin
      · right; exact ⟨m2, List.mem_cons_of_mem m0 hm2, hrest⟩

/-- C9 (amended). The generic key:value scan captures a candidate pair exactly
when the stripped key is strictly between 2 and 100 characters, the stripped
value strictly between 2 and 200 characters, and the key does not begin with a
demonstrative pronoun: every raw scan match passing this filter ends up (under
its normalized key) in the resulting pair map, every resulting pair stems from
such a kept match, and the filter is exactly these strict bounds — a key or
value of exactly 2 characters is rejected. -/
theorem kv_capture_bounds (text : String) :
    (∀ m ∈ pyFindIter false false reKvPat text,
       kvKeep (pyStrip (mGroupS m 1)) (pyStrip (mGroupS m 2)) = true →
       (((extractKeyValuePairs text).lookup
           (normalizeKey (pyStrip (mGroupS m 1)))).isSome = true)) ∧
    (∀ p ∈ extractKeyValuePairs text,
       ∃ m ∈ pyFindIter false false reKvPat text,
         kvKeep (pyStrip (mGroupS m 1)) (pyStrip (mGroupS m 2)) = true ∧
         p.1 = normalizeKey (pyStrip (mGroupS m 1)) ∧
         p.2 = pyStrip (mGroupS m 2)) ∧
    (∀ key value : String,
       kvKeep key value = true ↔
         (2 < pyLen key ∧ pyLen key < 100 ∧ 2 < pyLen value ∧ pyLen value < 200 ∧
           pyStartsWith key "The" = false ∧ pyStartsWith key "This" = false ∧
           pyStartsWith key "That" = false ∧ pyStartsWith key "These" = false)) := by
  refine ⟨?_, ?_, ?_⟩
  · intro m hm hk
    rw [extractKeyValuePairs]
    exact kvFold_adds _ _ m hm hk
  · intro p hp
    rw [extractKeyValuePairs] at hp
    rcases kvFold_src _ _ _ hp with hin | hsrc
    · cases hin
    · exact hsrc
  · intro key value
    rw [kvKeep]
    simp only [Bool.and_eq_true, decide_eq_true_eq, Bool.not_eq_true',
      Bool.or_eq_false_iff]
    tauto

/-- C9 counterexample: a line with a key of exactly 2 characters (`AB`) and a
5-character value, both inside the claimed 2–100 and 2–200 bounds, yields no
captured pair at all. -/
theorem kv_bounds_cex :
    (pyLen "AB" = 2 ∧ pyLen "hello" = 5) ∧
    extractKeyValuePairs "AB: hello\n" = [] := by
  constructor
  · exact ⟨rfl, rfl⟩
  · decide

/-- C9 witness: a 3-character key passes the filter and is captured. -/
theorem kv_capture_bounds_witness :
    kvKeep "ABC" "hiy" = true ∧
    (((extractKeyValuePairs "ABC: hiy\n").lookup "Abc").isSome = true) := by
  have h3 := ((kv_capture_bounds "ABC: hiy\n").2.2 "ABC" "hiy").mpr
    (by refine ⟨by decide, by decide, by decide, by decide, rfl, rfl, rfl, rfl⟩)
  refine ⟨h3, ?_⟩
  have hAll : ∀ m ∈ pyFindIter false false reKvPat "ABC: hiy\n",
      pyStrip (mGroupS m 1) = "ABC" ∧ pyStrip (mGroupS m 2) = "hiy" := by decide
  have hlist : pyFindIter false false reKvPat "ABC: hiy\n" ≠ [] := by decide
  cases hl : pyFindIter false false reKvPat "ABC: hiy\n" with
  | nil => exact absurd hl hlist
  | cons m0 rest =>
    have hm0 : m0 ∈ pyFindIter false false reKvPat "ABC: hiy\n" := by
      rw [hl]; exact List.mem_cons_self m0 rest
    have h0 := (kv_capture_bounds "ABC: hiy\n").1 m0 hm0
    have hk := (hAll m0 hm0).1
    have hv := (hAll m0 hm0).2
    have hnk : normalizeKey (pyStrip (mGroupS m0 1)) = "Abc" := by rw [hk]; decide
    rw [← hnk]
    exact h0 (by rw [hk, hv]; exact h3)

/-- A guarded metadata-insertion pass never changes the value of an
already-populated field name. -/
theorem guardedFold_lookup (src : String) (pairs : List (String × String)) :
    ∀ (md : CIRMetadataM) (name : String), (md.all_fields.lookup name).isSome = true →
    ((pairs.foldl (fun md p =>
        if (md.all_fields.lookup p.1).isSome then md
        else addField md p.1 (.s p.2) src) md).all_fields.lookup name)
      = md.all_fields.lookup name := by
  induction pairs with
  | nil => intro md name h; rfl
  | cons p rest ih =>
    intro md name h
    simp only [List.foldl_cons]
    by_cases hp : ((md.all_fields.lookup p.1).isSome : Prop)
    · rw [if_pos hp]; exact ih md name h
    · rw [if_neg hp]
      have hpres : (addField md p.1 (.s p.2) src).all_fields.lookup name
          = md.all_fields.lookup name := by
        rw [addField]
        split_ifs with ht
        · simp only [dictSet]
          rw [if_neg (by simpa using hp)]
          exact lookup_append_of_isSome _ _ _ h
        · rfl
      have hsome2 : ((addField md p.1 (.s p.2) src).all_fields.lookup name).isSome
          = true := by rw [hpres]; exact h
      rw [ih _ name hsome2, hpres]

/-- C4 (amended). First-writer-wins holds for the guarded strategies of
`extract_metadata`: once a field name is populated, the generic key:value scan
and the numeric extraction never replace its value. (The list-extraction and
date-extraction passes write unconditionally; the list pass can in fact
replace an `Observations` value populated by the key:value scan, see the
counterexample.) -/
theorem metadata_first_writer (text : String) (md : CIRMetadataM) (name : String)
    (h : (md.all_fields.lookup name).isSome = true) :
    (mdStageKV text md).all_fields.lookup name = md.all_fields.lookup name ∧
    (mdStageNumeric text md).all_fields.lookup name = md.all_fields.lookup name := by
  constructor
  · rw [mdStageKV]
    exact guardedFold_lookup "key_value_extraction" (extractKeyValuePairs text) md name h
  · rw [mdStageNumeric]
    exact guardedFold_lookup "numeric_extraction" (extractNumericFields text) md name h

/-- C4 counterexample: on the text `Observations: ABC` followed by two bullet
lines, the key:value scan populates `Observations` with the string `ABC`, and
the later list-extraction pass replaces it with the bullet list — the final
map binds `Observations` to the list, tagged `list_extraction`. -/
theorem metadata_overwrite_cex :
    ((mdStageKV "Observations: ABC\n- one\n- two\n"
        (mdStagePats "Observations: ABC\n- one\n- two\n")).all_fields.lookup
      "Observations" = some (.s "ABC")) ∧
    ((extractMetadata "Observations: ABC\n- one\n- two\n").all_fields.lookup
      "Observations" = some (.vlist ["one", "two"])) ∧
    ((extractMetadata "Observations: ABC\n- one\n- two\n").field_sources.lookup
      "Observations" = some "list_extraction") := by
  refine ⟨by decide, by decide, by decide⟩

/-- C4 witness: a pre-populated `Part Number` field survives both the
key:value scan and the numeric extraction on texts that would otherwise
populate it. -/
theorem metadata_first_writer_witness :
    ((mdStageKV "Part Number: AB-123\n"
        ⟨[("Part Number", MetaVal.s "FIRST")], [("Part Number", "pattern_matching")]⟩
      ).all_fields.lookup "Part Number" = some (MetaVal.s "FIRST")) ∧
    ((mdStageNumeric "Part: AB-123\n"
        ⟨[("Part Number", MetaVal.s "FIRST")], [("Part Number", "pattern_matching")]⟩
      ).all_fields.lookup "Part Number" = some (MetaVal.s "FIRST")) := by
  have h1 := (metadata_first_writer "Part Number: AB-123\n"
    ⟨[("Part Number", MetaVal.s "FIRST")], [("Part Number", "pattern_matching")]⟩
    "Part Number" (by decide)).1
  have h2 := (metadata_first_writer "Part: AB-123\n"
    ⟨[("Part Number", MetaVal.s "FIRST")], [("Part Number", "pattern_matching")]⟩
    "Part Number" (by decide)).2
  exact ⟨h1.trans (by decide), h2.trans (by decide)⟩

/-- C5 (amended). The case identifier is resolved by trying the three label
patterns in listed order, first match wins; a matching pattern yields its
captured group 1 only when the character `1` occurs in the Python rendering of
the capture tuple, and the whole matched text otherwise; when no pattern
matches the result is the default string `CIM-UNKNOWN`. -/
theorem case_id_resolution (text : String) :
    (pySearch true false reCaseId1 text = none →
     pySearch true false reCaseId2 text = none →
     pySearch true false reCaseId3 text = none →
     extractCaseId text = "CIM-UNKNOWN") ∧
    (∀ m, pySearch true false reCaseId1 text = some m →
       extractCaseId text = caseIdPick m) ∧
    (∀ m, pySearch true false reCaseId1 text = none →
       pySearch true false reCaseId2 text = some m →
       extractCaseId text = caseIdPick m) ∧
    (∀ m, pySearch true false reCaseId1 text = none →
       pySearch true false reCaseId2 text = none →
       pySearch true false reCaseId3 text = some m →
       extractCaseId text = caseIdPick m) ∧
    (∀ m, caseIdPick m =
       if (pyReprTuple (groupsOf m 1)).contains '1' then String.mk (mGroupD m 1)
       else mWholeS m) := by
  refine ⟨fun h1 h2 h3 => ?_, fun m h1 => ?_, fun m h1 h2 => ?_,
    fun m h1 h2 h3 => ?_, fun m => rfl⟩
  · simp only [extractCaseId, caseIdPats, caseIdGo, h1, h2, h3]
  · simp only [extractCaseId, caseIdPats, caseIdGo, h1]
  · simp only [extractCaseId, caseIdPats, caseIdGo, h1, h2]
  · simp only [extractCaseId, caseIdPats, caseIdGo, h1, h2, h3]

/-- C5 counterexample: with no match the result is `CIM-UNKNOWN`, not
`UNKNOWN`; and on `CIM 234` the first pattern matches with captured group
`234`, yet the result is the whole match `CIM 234` because no `1` occurs in
the rendered capture tuple. -/
theorem case_id_cex :
    extractCaseId "" = "CIM-UNKNOWN" ∧ extractCaseId "CIM 234" = "CIM 234" := by
  exact ⟨by decide, by decide⟩

/-- C5 witness: a text matching none of the three patterns resolves to the
default. -/
theorem case_id_resolution_witness :
    extractCaseId "no match here" = "CIM-UNKNOWN" :=
  (case_id_resolution "no match here").1 (by decide) (by decide) (by decide)

/-- Characterization of a false `contains` test. -/
theorem contains_eq_false_iff (seen : List String) (x : String) :
    seen.contains x = false ↔ x ∉ seen := by
  constructor
  · intro h hmem
    have h2 : seen.contains x = true := by
      rw [List.contains_eq_any_beq]
      rw [List.any_eq_true]
      exact ⟨x, hmem, by simp⟩
    rw [h] at h2
    cases h2
  · intro h
    cases hc : seen.contains x with
    | false => rfl
    | true =>
      rw [List.contains_eq_any_beq, List.any_eq_true] at hc
      rcases hc with ⟨y, hy, he⟩
      rw [beq_iff_eq] at he
      exact absurd (he ▸ hy) h

/-- Membership in the deduplication loop. -/
theorem mem_dedupGo (l : List String) :
    ∀ (seen : List String) (x : String),
      x ∈ dedupGo seen l ↔ (x ∈ l ∧ x ∉ seen) := by
  induction l with
  | nil => intro seen x; simp [dedupGo]
  | cons a t ih =>
    intro seen x
    rw [dedupGo]
    split_ifs with hc
    · rw [ih]
      have ha : a ∈ seen := by
        by_contra hcon
        rw [(contains_eq_false_iff seen a).mpr hcon] at hc
        cases hc
      constructor
      · rintro ⟨hx, hs⟩
        exact ⟨List.mem_cons_of_mem a hx, hs⟩
      · rintro ⟨hx, hs⟩
        rcases List.mem_cons.mp hx with rfl | hx2
        · exact absurd ha hs
        · exact ⟨hx2, hs⟩
    · have ha : a ∉ seen := (contains_eq_false_iff seen a).mp (by simpa using hc)
      constructor
      · intro hx
        rcases List.mem_cons.mp hx with rfl | hx2
        · exact ⟨List.mem_cons_self x t, ha⟩
        · rcases (ih _ _).mp hx2 with ⟨hxt, hxs⟩
          exact ⟨List.mem_cons_of_mem a hxt,
            fun hmem => hxs (List.mem_cons_of_mem a hmem)⟩
      · rintro ⟨hx, hs⟩
        by_cases hxa : x = a
        · subst hxa
          exact List.mem_cons_self x _
        · have hx2 : x ∈ t := by
            rcases List.mem_cons.mp hx with h | h
            · exact absurd h hxa
            · exact h
          apply List.mem_cons_of_mem
          apply (ih _ _).mpr
          refine ⟨hx2, fun hmem => ?_⟩
          rcases List.mem_cons.mp hmem with h | h
          · exact hxa h
          · exact hs h

/-- Deduplication preserves membership. -/
theorem mem_dedupKF (l : List String) (x : String) : x ∈ dedupKF l ↔ x ∈ l := by
  rw [dedupKF, mem_dedupGo]
  simp

/-- C6 (amended). The failure-types list contains exactly the title-casings of
failure-vocabulary terms literally occurring (case-insensitively) in the text,
deduplicated — as the claim states. The affected-components list, however,
contains exactly the title-cased captures of vocabulary terms that occur in
the lowered text AND whose context pattern matches, i.e. the term (optionally
pluralized, optionally preceded by `the`) followed by one of
component/part/assembly/system; mere occurrence is not enough. -/
theorem vocab_extraction (text x : String) :
    (x ∈ extractAffectedComponents text ↔
      ∃ c ∈ componentKeywords, strHasSub c (pyLower text) = true ∧
        ∃ m, pySearch false false (reCompCtx c) (pyLower text) = some m ∧
          x = pyTitle (String.mk (mGroupD m 1))) ∧
    (x ∈ extractFailureTypes text ↔
      ∃ f ∈ failureKeywords, strHasSub f (pyLower text) = true ∧ x = pyTitle f) := by
  constructor
  · rw [extractAffectedComponents]
    simp only [mem_dedupKF, List.mem_filterMap]
    constructor
    · rintro ⟨c, hc, hfc⟩
      refine ⟨c, hc, ?_⟩
      by_cases hin : strHasSub c (pyLower text) = true
      · rw [if_pos hin] at hfc
        cases hs : pySearch false false (reCompCtx c) (pyLower text) with
        | none => rw [hs] at hfc; cases hfc
        | some m =>
          rw [hs] at hfc
          simp only [Option.some.injEq] at hfc
          exact ⟨hin, m, rfl, hfc.symm⟩
      · rw [if_neg hin] at hfc
        cases hfc
    · rintro ⟨c, hc, hin, m, hs, hx⟩
      refine ⟨c, hc, ?_⟩
      rw [if_pos hin, hs, hx]
  · rw [extractFailureTypes]
    simp only [mem_dedupKF, List.mem_filterMap]
    constructor
    · rintro ⟨f, hf, hff⟩
      refine ⟨f, hf, ?_⟩
      by_cases hin : strHasSub f (pyLower text) = true
      · rw [if_pos hin] at hff
        simp only [Option.some.injEq] at hff
        exact ⟨hin, hff.symm⟩
      · rw [if_neg hin] at hff
        cases hff
    · rintro ⟨f, hf, hin, hx⟩
      refine ⟨f, hf, ?_⟩
      rw [if_pos hin, hx]

/-- C6 counterexample: `blade` is in the component vocabulary and literally
occurs in the text `blade`, yet the affected-components list is empty because
no context word follows; the failure-types half behaves as claimed. -/
theorem component_context_cex :
    ("blade" ∈ componentKeywords ∧ strHasSub "blade" (pyLower "blade") = true) ∧
    extractAffectedComponents "blade" = [] ∧
    extractFailureTypes "fatigue and corrosion" = ["Fatigue", "Corrosion"] := by
  exact ⟨⟨by decide, by decide⟩, by decide, by decide⟩

/-! ## Batch-mode error isolation -/

/-- The `analyze_batch` loop appends one entry per document. -/
theorem analyzeBatch_aux (l : List (String × Except String DocResult)) :
    ∀ acc, l.foldl
      (fun results o =>
        match o.2 with
        | .ok r => results ++ [.ok o.1 r]
        | .error e => results ++ [.err o.1 e])
      acc = acc ++ l.map pipeEntry := by
  induction l with
  | nil => intro acc; simp
  | cons o rest ih =>
    intro acc
    rcases o with ⟨name, exc⟩
    cases exc with
    | ok r =>
      simp only [List.foldl_cons, List.map_cons]
      rw [ih]
      simp [pipeEntry]
    | error e =>
      simp only [List.foldl_cons, List.map_cons]
      rw [ih]
      simp [pipeEntry]

/-- The batch result list is the per-document map: every document, errored
or not, yields exactly its own entry, in order. -/
theorem analyzeBatch_eq_map (l : List (String × Except String DocResult)) :
    analyzeBatch l = l.map pipeEntry := by
  rw [analyzeBatch, analyzeBatch_aux]
  rfl

/-- The valid results of a batch are the successful payloads. -/
theorem validResults_analyzeBatch (l : List (String × Except String DocResult)) :
    validResults (analyzeBatch l) =
      l.filterMap (fun o =>
        match o.2 with
        | .ok r => some r
        | .error _ => none) := by
  rw [analyzeBatch_eq_map, validResults, List.filterMap_map]
  congr 1
  funext o
  rcases o with ⟨name, exc⟩
  cases exc <;> rfl

/-- Dropping errored outcomes does not change the successful payloads. -/
theorem filterMap_ok_filter (l : List (String × Except String DocResult)) :
    l.filterMap (fun o =>
        match o.2 with
        | .ok r => some r
        | .error _ => none) =
      (l.filter (fun o => o.2.isOk)).filterMap (fun o =>
        match o.2 with
        | .ok r => some r
        | .error _ => none) := by
  induction l with
  | nil => rfl
  | cons o rest ih =>
    rcases o with ⟨name, exc⟩
    cases exc with
    | ok r => simp [List.filterMap_cons, List.filter_cons, Except.isOk, Except.toBool, ih]
    | error e => simp [List.filterMap_cons, List.filter_cons, Except.isOk, Except.toBool, ih]

/-- Counter arithmetic of the `process_directory` summary fold. -/
theorem procFold_spec (results : List SingleResult) :
    ∀ s : ProcSummary,
      (results.foldl procStep s).failed =
        s.failed + (results.filter (fun r =>
          match r with | .errorR _ _ => true | .success _ => false)).length ∧
      (results.foldl procStep s).successfully_processed =
        s.successfully_processed + (results.filter (fun r =>
          match r with | .success _ => true | .errorR _ _ => false)).length ∧
      (results.foldl procStep s).files.length =
        s.files.length + (results.filter (fun r =>
          match r with | .success _ => true | .errorR _ _ => false)).length ∧
      (results.foldl procStep s).go_count =
        s.go_count + (results.filter (fun r =>
          match r with
          | .success r0 => r0.comp_status = "GO"
          | .errorR _ _ => false)).length := by
  induction results with
  | nil => intro s; simp
  | cons r rest ih =>
    intro s
    rcases r with r0 | ⟨fn, msg⟩
    · have h := ih (procStep s (.success r0))
      simp only [List.foldl_cons] at *
      refine ⟨?_, ?_, ?_, ?_⟩
      · rw [h.1]
        simp [procStep, List.filter_cons]
      · rw [h.2.1]
        simp only [procStep, List.filter_cons]
        simp
        omega
      · rw [h.2.2.1]
        simp only [procStep, List.filter_cons]
        simp
        omega
      · rw [h.2.2.2]
        simp only [procStep, List.filter_cons]
        by_cases hgo : r0.comp_status = "GO"
        · simp [hgo]
          omega
        · simp [hgo]
    · have h := ih (procStep s (.errorR fn msg))
      simp only [List.foldl_cons] at *
      refine ⟨?_, ?_, ?_, ?_⟩
      · rw [h.1]
        simp [procStep, List.filter_cons]
        omega
      · rw [h.2.1]
        simp [procStep, List.filter_cons]
      · rw [h.2.2.1]
        simp [procStep, List.filter_cons]
      · rw [h.2.2.2]
        simp [procStep, List.filter_cons]

/-- C7. Batch-mode error isolation. For the pipeline's `analyze_batch`: every
document yields exactly one entry in order (so processing continues past
failures), an errored document's entry is the error dict carrying its
exception message, and `get_summary_statistics` is unchanged when the errored
documents are dropped — they are excluded from every scoring aggregate. For
the batch processor's `process_directory`: the `failed` tally counts exactly
the errored documents, while `successfully_processed`, the `files` list and
`go_count` are computed from the successful documents only, and each errored
document's result is the status-error dict with its message. -/
theorem batch_error_isolation
    (pouts : List (String × Except String DocResult))
    (bouts : List (String × Except String SingleOk)) :
    (analyzeBatch pouts = pouts.map pipeEntry) ∧
    (∀ name msg, (name, Except.error msg) ∈ pouts →
       BatchEntry.err name msg ∈ analyzeBatch pouts) ∧
    (getSummaryStatistics (analyzeBatch pouts) =
      getSummaryStatistics (analyzeBatch (pouts.filter (fun o => o.2.isOk)))) ∧
    ((processDirectory bouts).1.failed =
      (bouts.filter (fun o => !o.2.isOk)).length) ∧
    ((processDirectory bouts).1.successfully_processed =
      (bouts.filter (fun o => o.2.isOk)).length) ∧
    ((processDirectory bouts).1.files.length =
      (bouts.filter (fun o => o.2.isOk)).length) ∧
    ((processDirectory bouts).1.go_count =
      (bouts.filter (fun o =>
        match o.2 with
        | .ok r => r.comp_status = "GO"
        | .error _ => false)).length) ∧
    ((processDirectory bouts).2 = bouts.map (fun o => processSingle o.1 o.2)) ∧
    (∀ name msg, (name, Except.error msg) ∈ bouts →
       SingleResult.errorR name msg ∈ (processDirectory bouts).2) := by
  have hproc := procFold_spec (bouts.map (fun o => processSingle o.1 o.2))
    { total_files := bouts.length, successfully_processed := 0, failed := 0,
      go_count := 0, nogo_count := 0, files := [] }
  have hfiltErr : ((bouts.map (fun o => processSingle o.1 o.2)).filter (fun r =>
      match r with | .errorR _ _ => true | .success _ => false)).length =
      (bouts.filter (fun o => !o.2.isOk)).length := by
    rw [List.filter_map, List.length_map]
    congr 1
    apply List.filter_congr
    intro o _
    rcases o with ⟨name, exc⟩
    cases exc <;> rfl
  have hfiltOk : ((bouts.map (fun o => processSingle o.1 o.2)).filter (fun r =>
      match r with | .success _ => true | .errorR _ _ => false)).length =
      (bouts.filter (fun o => o.2.isOk)).length := by
    rw [List.filter_map, List.length_map]
    congr 1
    apply List.filter_congr
    intro o _
    rcases o with ⟨name, exc⟩
    cases exc <;> rfl
  have hfiltGo : ((bouts.map (fun o => processSingle o.1 o.2)).filter (fun r =>
      match r with
      | .success r0 => r0.comp_status = "GO"
      | .errorR _ _ => false)).length =
      (bouts.filter (fun o =>
        match o.2 with
        | .ok r => r.comp_status = "GO"
        | .error _ => false)).length := by
    rw [List.filter_map, List.length_map]
    congr 1
    apply List.filter_congr
    intro o _
    rcases o with ⟨name, exc⟩
    cases exc <;> rfl
  refine ⟨analyzeBatch_eq_map pouts, ?_, ?_, ?_, ?_, ?_, ?_, rfl, ?_⟩
  · intro name msg hmem
    rw [analyzeBatch_eq_map]
    exact List.mem_map.mpr ⟨(name, Except.error msg), hmem, rfl⟩
  · rw [getSummaryStatistics, getSummaryStatistics]
    rw [validResults_analyzeBatch, validResults_analyzeBatch, filterMap_ok_filter]
  · rw [processDirectory]
    simp only []
    rw [hproc.1, hfiltErr]
    simp
  · rw [processDirectory]
    simp only []
    rw [hproc.2.1, hfiltOk]
    simp
  · rw [processDirectory]
    simp only []
    rw [hproc.2.2.1, hfiltOk]
    simp
  · rw [processDirectory]
    simp only []
    rw [hproc.2.2.2, hfiltGo]
    simp
  · intro name msg hmem
    exact List.mem_map.mpr ⟨(name, Except.error msg), hmem, rfl⟩

/-- C7 witness: a two-document batch whose second document raises is still
fully processed; the error entry carries the message, and the processor
counts exactly one failure. -/
theorem batch_error_isolation_witness :
    (BatchEntry.err "b.pdf" "parse failure" ∈ analyzeBatch
      [("a.pdf", Except.ok
          { go_nogo := "GO", compliance_score := 90, met_requirements := 2,
            partial_requirements := 0, not_met_requirements := 0,
            total_requirements := 2 }),
       ("b.pdf", Except.error "parse failure")]) ∧
    ((processDirectory
        [("c.pdf", Except.ok
            { filename := "c.pdf", cir_number := "CIR-1", comp_status := "GO",
              comp_score := 95 }),
         ("d.pdf", Except.error "boom")]).1.failed = 1) ∧
    (SingleResult.errorR "d.pdf" "boom" ∈ (processDirectory
        [("c.pdf", Except.ok
            { filename := "c.pdf", cir_number := "CIR-1", comp_status := "GO",
              comp_score := 95 }),
         ("d.pdf", Except.error "boom")]).2) := by
  have h := batch_error_isolation
    [("a.pdf", Except.ok
        { go_nogo := "GO", compliance_score := 90, met_requirements := 2,
          partial_requirements := 0, not_met_requirements := 0,
          total_requirements := 2 }),
     ("b.pdf", Except.error "parse failure")]
    [("c.pdf", Except.ok
        { filename := "c.pdf", cir_number := "CIR-1", comp_status := "GO",
          comp_score := 95 }),
     ("d.pdf", Except.error "boom")]
  refine ⟨?_, ?_, ?_⟩
  · exact h.2.1 "b.pdf" "parse failure"
      (List.mem_cons_of_mem _ (List.mem_cons_self _ _))
  · refine h.2.2.2.1.trans ?_
    rfl
  · exact h.2.2.2.2.2.2.2.2 "d.pdf" "boom"
      (List.mem_cons_of_mem _ (List.mem_cons_self _ _))

theorem natsFrom_length (s k : Nat) : (natsFrom s k).length = k := by
  induction k generalizing s with
  | zero => rfl
  | succ k ih => simp [natsFrom, ih]

theorem natsFrom_append (a : Nat) :
    ∀ (s b : Nat), natsFrom s (a + b) = natsFrom s a ++ natsFrom (s + a) b := by
  induction a with
  | zero => intro s b; simp [natsFrom]
  | succ a ih =>
    intro s b
    have h1 : a + 1 + b = (a + b) + 1 := by omega
    rw [h1, natsFrom, natsFrom, ih (s + 1) b, List.cons_append]
    have h2 : s + 1 + a = s + (a + 1) := by omega
    rw [h2]

theorem mem_natsFrom (x : Nat) : ∀ (s k : Nat), x ∈ natsFrom s k → s ≤ x := by
  intro s k
  induction k generalizing s with
  | zero => intro h; cases h
  | succ k ih =>
    intro h
    rcases List.mem_cons.mp h with rfl | h2
    · omega
    · have := ih (s + 1) h2
      omega

theorem natsFrom_pairwise (s k : Nat) : (natsFrom s k).Pairwise (· ≠ ·) := by
  induction k generalizing s with
  | zero => exact List.Pairwise.nil
  | succ k ih =>
    rw [natsFrom]
    refine List.Pairwise.cons ?_ (ih (s + 1))
    intro x hx
    have := mem_natsFrom x (s + 1) k hx
    omega

theorem decDigit_ne_dash (d : Nat) (h : d < 10) : decDigit d ≠ '-' := by
  interval_cases d <;> decide

theorem decDigit_val (d : Nat) (h : d < 10) : (decDigit d).toNat - 48 = d := by
  interval_cases d <;> decide

theorem natDecGo_shape (fuel : Nat) :
    ∀ n c, c ∈ natDecGo fuel n → ∃ d, d < 10 ∧ c = decDigit d := by
  induction fuel with
  | zero => intro n c h; cases h
  | succ fuel ih =>
    intro n c h
    rw [natDecGo] at h
    split_ifs at h with h10
    · rcases List.mem_singleton.mp h with rfl
      exact ⟨n, h10, rfl⟩
    · rcases List.mem_append.mp h with h1 | h1
      · exact ih _ _ h1
      · rcases List.mem_singleton.mp h1 with rfl
        exact ⟨n % 10, Nat.mod_lt _ (by norm_num), rfl⟩

theorem valDigits_append_digit (l : List Char) (c : Char) :
    valDigits (l ++ [c]) = 10 * valDigits l + (c.toNat - 48) := by
  rw [valDigits, valDigits, List.foldl_append]
  rfl

theorem valDigits_natDecGo (fuel : Nat) :
    ∀ n, n < fuel → valDigits (natDecGo fuel n) = n := by
  induction fuel with
  | zero => intro n h; omega
  | succ fuel ih =>
    intro n h
    rw [natDecGo]
    split_ifs with h10
    · have h1 : valDigits [decDigit n] = (decDigit n).toNat - 48 := by
        rw [valDigits]
        simp [List.foldl]
      rw [h1, decDigit_val n h10]
    · have h2 : n / 10 < n := Nat.div_lt_self (by omega) (by norm_num)
      rw [valDigits_append_digit, ih (n / 10) (by omega)]
      rw [decDigit_val (n % 10) (Nat.mod_lt _ (by norm_num))]
      omega

theorem valDigits_natDecL (n : Nat) : valDigits (natDecL n) = n :=
  valDigits_natDecGo (n + 1) n (Nat.lt_succ_self n)

theorem valDigits_pad (w : Nat) (l : List Char) :
    valDigits (padZeroTo w l) = valDigits l := by
  rw [padZeroTo]
  generalize (w - l.length) = k
  induction k with
  | zero => rfl
  | succ k ih =>
    rw [List.replicate_succ, List.cons_append]
    rw [valDigits, List.foldl_cons]
    have h0 : (10 * 0 + ('0'.toNat - 48)) = 0 := by decide
    rw [h0]
    exact ih

theorem pad_ne_dash (w n : Nat) : ∀ c ∈ padZeroTo w (natDecL n), c ≠ '-' := by
  intro c hc
  rw [padZeroTo] at hc
  rcases List.mem_append.mp hc with h1 | h1
  · rw [List.eq_of_mem_replicate h1]
    decide
  · rcases natDecGo_shape (n + 1) n c h1 with ⟨d, hd, rfl⟩
    exact decDigit_ne_dash d hd

theorem takeWhile_append_all (p : Char → Bool) (l1 l2 : List Char)
    (h : ∀ c ∈ l1, p c = true) : (l1 ++ l2).takeWhile p = l1 ++ l2.takeWhile p := by
  induction l1 with
  | nil => rfl
  | cons c t ih =>
    simp only [List.cons_append, List.takeWhile_cons]
    rw [h c (List.mem_cons_self c t)]
    simp only [if_true]
    rw [ih (fun c2 h2 => h c2 (List.mem_cons_of_mem c h2))]

theorem idNum_tag_pad (tag : String) (htag : tag.data.getLast? = some '-') (n : Nat) :
    idNum (tag ++ pyFormatZ 3 n) = n := by
  rw [idNum, idNumPart]
  have hdata : (tag ++ pyFormatZ 3 n).data = tag.data ++ padZeroTo 3 (natDecL n) := by
    rw [String.data_append]
    rfl
  rw [hdata, List.reverse_append]
  rw [takeWhile_append_all _ _ _ (fun c hc => by
    simp only [decide_eq_true_eq]
    exact pad_ne_dash 3 n c (List.mem_reverse.mp hc))]
  have hrev : tag.data.reverse.head? = some '-' := by
    rw [List.head?_reverse]
    exact htag
  have htw : tag.data.reverse.takeWhile (fun c => c ≠ '-') = [] := by
    cases hr : tag.data.reverse with
    | nil => rfl
    | cons c t =>
      rw [hr] at hrev
      simp only [List.head?_cons, Option.some.injEq] at hrev
      rw [List.takeWhile_cons, hrev]
      simp
  rw [htw, List.append_nil, List.reverse_reverse]
  rw [valDigits_pad, valDigits_natDecL]

theorem emitReqs_spec (mk : RMatch → Option (Nat → Requirement)) (tag ty : String)
    (H : ∀ m f, mk m = some f → ∀ n,
        (f n).requirement_id = tag ++ pyFormatZ 3 n ∧ (f n).requirement_type = ty) :
    ∀ (ms : List RMatch) (c : Nat),
      (emitReqs mk ms c).2 = c + (emitReqs mk ms c).1.length ∧
      (emitReqs mk ms c).1.map (fun r => r.requirement_id) =
        (natsFrom (c + 1) (emitReqs mk ms c).1.length).map
          (fun n => tag ++ pyFormatZ 3 n) ∧
      ∀ r ∈ (emitReqs mk ms c).1, r.requirement_type = ty := by
  intro ms
  induction ms with
  | nil =>
    intro c
    refine ⟨by simp [emitReqs], by simp [emitReqs, natsFrom], ?_⟩
    intro r h
    simp [emitReqs] at h
  | cons m ms ih =>
    intro c
    cases hmk : mk m with
    | none =>
      have he : emitReqs mk (m :: ms) c = emitReqs mk ms c := by
        rw [emitReqs, hmk]
      rw [he]
      exact ih c
    | some f =>
      have he : emitReqs mk (m :: ms) c =
          (f (c + 1) :: (emitReqs mk ms (c + 1)).1, (emitReqs mk ms (c + 1)).2) := by
        rw [emitReqs, hmk]
      rw [he]
      obtain ⟨ih1, ih2, ih3⟩ := ih (c + 1)
      obtain ⟨hid, hty⟩ := H m f hmk (c + 1)
      refine ⟨?_, ?_, ?_⟩
      · simp only [List.length_cons]
        rw [ih1]
        omega
      · simp only [List.map_cons, List.length_cons, natsFrom]
        rw [hid, ih2]
      · intro r hr
        rcases List.mem_cons.mp hr with rfl | hr2
        · exact hty
        · exact ih3 r hr2

theorem extractTestMethods_spec (text source : String) (c : Nat) :
    (extractTestMethods text source c).2 =
        c + (extractTestMethods text source c).1.length ∧
    (extractTestMethods text source c).1.map (fun r => r.requirement_id) =
      (natsFrom (c + 1) (extractTestMethods text source c).1.length).map
        (fun n => "TEST-" ++ pyFormatZ 3 n) ∧
    ∀ r ∈ (extractTestMethods text source c).1,
        r.requirement_type = "Test Method" := by
  unfold extractTestMethods
  exact emitReqs_spec _ "TEST-" "Test Method"
    (fun m f hmk n => by
      rw [← Option.some_inj.mp hmk]
      exact ⟨rfl, rfl⟩) _ c

theorem extractDocReqs_spec (text source : String) (c : Nat) :
    (extractDocReqs text source c).2 =
        c + (extractDocReqs text source c).1.length ∧
    (extractDocReqs text source c).1.map (fun r => r.requirement_id) =
      (natsFrom (c + 1) (extractDocReqs text source c).1.length).map
        (fun n => "DOC-" ++ pyFormatZ 3 n) ∧
    ∀ r ∈ (extractDocReqs text source c).1,
        r.requirement_type = "Documentation" := by
  unfold extractDocReqs
  exact emitReqs_spec _ "DOC-" "Documentation"
    (fun m f hmk n => by
      simp only [] at hmk
      split_ifs at hmk with hd
      rw [← Option.some_inj.mp hmk]
      exact ⟨rfl, rfl⟩) _ c

theorem extractVisReqs_spec (text source : String) (c : Nat) :
    (extractVisReqs text source c).2 =
        c + (extractVisReqs text source c).1.length ∧
    (extractVisReqs text source c).1.map (fun r => r.requirement_id) =
      (natsFrom (c + 1) (extractVisReqs text source c).1.length).map
        (fun n => "VIS-" ++ pyFormatZ 3 n) ∧
    ∀ r ∈ (extractVisReqs text source c).1,
        r.requirement_type = "Visual Inspection" := by
  unfold extractVisReqs
  exact emitReqs_spec _ "VIS-" "Visual Inspection"
    (fun m f hmk n => by
      rw [← Option.some_inj.mp hmk]
      exact ⟨rfl, rfl⟩) _ c

theorem extractProcReqs_spec (text source : String) (c : Nat) :
    (extractProcReqs text source c).2 =
        c + (extractProcReqs text source c).1.length ∧
    (extractProcReqs text source c).1.map (fun r => r.requirement_id) =
      (natsFrom (c + 1) (extractProcReqs text source c).1.length).map
        (fun n => "PROC-" ++ pyFormatZ 3 n) ∧
    ∀ r ∈ (extractProcReqs text source c).1,
        r.requirement_type = "Procedure" := by
  unfold extractProcReqs
  exact emitReqs_spec _ "PROC-" "Procedure"
    (fun m f hmk n => by
      simp only [] at hmk
      split_ifs at hmk with hd
      rw [← Option.some_inj.mp hmk]
      exact ⟨rfl, rfl⟩) _ c

theorem zipWith_tag (tag : String) :
    ∀ (seg : List Requirement) (ns : List Nat),
      (∀ r ∈ seg, catTag r.requirement_type = tag) → seg.length = ns.length →
      List.zipWith (fun r n => catTag r.requirement_type ++ pyFormatZ 3 n) seg ns =
        ns.map (fun n => tag ++ pyFormatZ 3 n) := by
  intro seg
  induction seg with
  | nil =>
    intro ns h hl
    cases ns with
    | nil => rfl
    | cons n nt => cases hl
  | cons r t ih =>
    intro ns h hl
    cases ns with
    | nil => cases hl
    | cons n nt =>
      simp only [List.zipWith_cons_cons, List.map_cons]
      rw [h r (List.mem_cons_self r t)]
      rw [ih nt (fun r2 h2 => h r2 (List.mem_cons_of_mem r h2)) (by simpa using hl)]

theorem four_seg_ids (c0 c1 c2 c3 : Nat) (T D V P : List Requirement)
    (tT tD tV tP : String)
    (h1 : c1 = c0 + T.length) (h2 : c2 = c1 + D.length) (h3 : c3 = c2 + V.length)
    (hT2 : T.map (fun r => r.requirement_id) =
      (natsFrom (c0 + 1) T.length).map (fun n => tT ++ pyFormatZ 3 n))
    (hD2 : D.map (fun r => r.requirement_id) =
      (natsFrom (c1 + 1) D.length).map (fun n => tD ++ pyFormatZ 3 n))
    (hV2 : V.map (fun r => r.requirement_id) =
      (natsFrom (c2 + 1) V.length).map (fun n => tV ++ pyFormatZ 3 n))
    (hP2 : P.map (fun r => r.requirement_id) =
      (natsFrom (c3 + 1) P.length).map (fun n => tP ++ pyFormatZ 3 n))
    (hTt : ∀ r ∈ T, catTag r.requirement_type = tT)
    (hDt : ∀ r ∈ D, catTag r.requirement_type = tD)
    (hVt : ∀ r ∈ V, catTag r.requirement_type = tV)
    (hPt : ∀ r ∈ P, catTag r.requirement_type = tP)
    (gT : tT.data.getLast? = some '-') (gD : tD.data.getLast? = some '-')
    (gV : tV.data.getLast? = some '-') (gP : tP.data.getLast? = some '-') :
    (((T ++ D ++ V ++ P).map (fun r => r.requirement_id)).Pairwise (· ≠ ·)) ∧
    (T ++ D ++ V ++ P).map (fun r => r.requirement_id) =
      List.zipWith (fun r n => catTag r.requirement_type ++ pyFormatZ 3 n)
        (T ++ D ++ V ++ P) (natsFrom (c0 + 1) (T ++ D ++ V ++ P).length) := by
  subst h1 h2 h3
  have eT : c0 + 1 + T.length = c0 + T.length + 1 := by omega
  have eV : c0 + 1 + (T.length + D.length) = c0 + T.length + D.length + 1 := by omega
  have eP : c0 + 1 + (T.length + D.length + V.length) =
      c0 + T.length + D.length + V.length + 1 := by omega
  have hsA := natsFrom_append (T.length + D.length + V.length) (c0 + 1) P.length
  rw [eP] at hsA
  have hsB := natsFrom_append (T.length + D.length) (c0 + 1) V.length
  rw [eV] at hsB
  have hsC := natsFrom_append T.length (c0 + 1) D.length
  rw [eT] at hsC
  have hns : natsFrom (c0 + 1) (T ++ D ++ V ++ P).length =
      natsFrom (c0 + 1) T.length ++ natsFrom (c0 + T.length + 1) D.length ++
      natsFrom (c0 + T.length + D.length + 1) V.length ++
      natsFrom (c0 + T.length + D.length + V.length + 1) P.length := by
    have hl : (T ++ D ++ V ++ P).length =
        T.length + D.length + V.length + P.length := by
      simp only [List.length_append]
    rw [hl, hsA, hsB, hsC]
  have hmapids : (T ++ D ++ V ++ P).map (fun r => r.requirement_id) =
      (natsFrom (c0 + 1) T.length).map (fun n => tT ++ pyFormatZ 3 n) ++
      (natsFrom (c0 + T.length + 1) D.length).map (fun n => tD ++ pyFormatZ 3 n) ++
      (natsFrom (c0 + T.length + D.length + 1) V.length).map
        (fun n => tV ++ pyFormatZ 3 n) ++
      (natsFrom (c0 + T.length + D.length + V.length + 1) P.length).map
        (fun n => tP ++ pyFormatZ 3 n) := by
    simp only [List.map_append]
    rw [hT2, hD2, hV2, hP2]
  have heq : (T ++ D ++ V ++ P).map (fun r => r.requirement_id) =
      List.zipWith (fun r n => catTag r.requirement_type ++ pyFormatZ 3 n)
        (T ++ D ++ V ++ P) (natsFrom (c0 + 1) (T ++ D ++ V ++ P).length) := by
    rw [hns]
    rw [List.zipWith_append _ _ _ _ _
      (by simp [natsFrom_length, List.length_append])]
    rw [List.zipWith_append _ _ _ _ _
      (by simp [natsFrom_length, List.length_append])]
    rw [List.zipWith_append _ _ _ _ _
      (by simp [natsFrom_length, List.length_append])]
    rw [zipWith_tag tT T _ hTt (by rw [natsFrom_length])]
    rw [zipWith_tag tD D _ hDt (by rw [natsFrom_length])]
    rw [zipWith_tag tV V _ hVt (by rw [natsFrom_length])]
    rw [zipWith_tag tP P _ hPt (by rw [natsFrom_length])]
    exact hmapids
  have hid4 : ∀ (tg : String), tg.data.getLast? = some '-' →
      ∀ ns : List Nat, (ns.map (fun n => tg ++ pyFormatZ 3 n)).map idNum = ns := by
    intro tg hg ns
    rw [List.map_map]
    have hfun : (idNum ∘ fun n => tg ++ pyFormatZ 3 n) = fun n => n :=
      funext (fun n => idNum_tag_pad tg hg n)
    rw [hfun]
    exact List.map_id' ns
  have hmapnum : ((T ++ D ++ V ++ P).map (fun r => r.requirement_id)).map idNum =
      natsFrom (c0 + 1) (T ++ D ++ V ++ P).length := by
    rw [hmapids, hns]
    simp only [List.map_append]
    rw [hid4 tT gT, hid4 tD gD, hid4 tV gV, hid4 tP gP]
  have hpw := natsFrom_pairwise (c0 + 1) (T ++ D ++ V ++ P).length
  rw [← hmapnum] at hpw
  refine ⟨?_, heq⟩
  have hpw2 := List.pairwise_map.mp hpw
  exact hpw2.imp (fun h heq2 => h (congrArg idNum heq2))

/-- C8. Within one analysis run, the generated requirement identifiers are
pairwise distinct, each is its category tag followed by the zero-padded shared
counter value, and the counter values are exactly the consecutive integers
`c0+1, c0+2, ...` in generation order across the four category extractors. -/
theorem requirement_id_uniqueness (c0 : Nat) (text docName : String) :
    (((analyzeCIMDocument c0 text docName).1.requirements.map
        (fun r => r.requirement_id)).Pairwise (· ≠ ·)) ∧
    (analyzeCIMDocument c0 text docName).1.requirements.map
        (fun r => r.requirement_id) =
      List.zipWith (fun r n => catTag r.requirement_type ++ pyFormatZ 3 n)
        (analyzeCIMDocument c0 text docName).1.requirements
        (natsFrom (c0 + 1)
          (analyzeCIMDocument c0 text docName).1.requirements.length) := by
  obtain ⟨hT1, hT2, hT3⟩ := extractTestMethods_spec text docName c0
  obtain ⟨hD1, hD2, hD3⟩ :=
    extractDocReqs_spec text docName (extractTestMethods text docName c0).2
  obtain ⟨hV1, hV2, hV3⟩ := extractVisReqs_spec text docName
    (extractDocReqs text docName (extractTestMethods text docName c0).2).2
  obtain ⟨hP1, hP2, hP3⟩ := extractProcReqs_spec text docName
    (extractVisReqs text docName
      (extractDocReqs text docName (extractTestMethods text docName c0).2).2).2
  have hreq : (analyzeCIMDocument c0 text docName).1.requirements =
      (extractTestMethods text docName c0).1 ++
      (extractDocReqs text docName (extractTestMethods text docName c0).2).1 ++
      (extractVisReqs text docName
        (extractDocReqs text docName (extractTestMethods text docName c0).2).2).1 ++
      (extractProcReqs text docName
        (extractVisReqs text docName
          (extractDocReqs text docName
            (extractTestMethods text docName c0).2).2).2).1 := rfl
  rw [hreq]
  exact four_seg_ids c0 _ _ _ _ _ _ _ "TEST-" "DOC-" "VIS-" "PROC-"
    hT1 hD1 hV1 hT2 hD2 hV2 hP2
    (fun r hr => by rw [hT3 r hr]; decide)
    (fun r hr => by rw [hD3 r hr]; decide)
    (fun r hr => by rw [hV3 r hr]; decide)
    (fun r hr => by rw [hP3 r hr]; decide)
    (by decide) (by decide) (by decide) (by decide)
